import Mathlib

/-!
Verification of the bare-metal-forth driver-extraction pipeline.

Shallow embedding of the C sources under src/tools/translator/:
  * src/codegen/forth_codegen.c  (Forth code generator)
  * src/loaders/pe_loader.c      (PE loader)
  * src/decoders/x86_decoder.c   (x86 instruction decoder)
  * src/ir/uir.c                 (UIR lifter)

Machine integers are modelled as Nat (unsigned) or Int (signed), with
explicit `% 2^w` where the C code performs wrapping arithmetic.  Byte
slices are modelled as a pair of a total function `Nat → Nat` (the byte
at each offset; reads normalise with `% 256` to reflect that C memory
holds `uint8_t` values) and a length.  Fallible C functions returning
`-1` / `NULL` are modelled with `Option`.
-/

namespace BareMetalForth

/-! ## Byte-level helpers (read16/read32/read64 in pe_loader.c, uint casts) -/

/-- Byte of the modelled slice at offset `o` (C memory holds `uint8_t`). -/
def byteAt (data : Nat → Nat) (o : Nat) : Nat := data o % 256

/-- `read16` in pe_loader.c: little-endian 16-bit read. -/
def read16 (data : Nat → Nat) (o : Nat) : Nat :=
  byteAt data o ||| (byteAt data (o + 1) <<< 8)

/-- `read32` in pe_loader.c: little-endian 32-bit read. -/
def read32 (data : Nat → Nat) (o : Nat) : Nat :=
  byteAt data o ||| (byteAt data (o + 1) <<< 8) |||
  (byteAt data (o + 2) <<< 16) ||| (byteAt data (o + 3) <<< 24)

/-- `read64` in pe_loader.c: two 32-bit reads combined. -/
def read64 (data : Nat → Nat) (o : Nat) : Nat :=
  read32 data o ||| (read32 data (o + 4) <<< 32)

/-- Interpret an unsigned 64-bit value (a Nat `< 2^64`) as a signed
`int64_t`, as the C cast `(int64_t)u` does. -/
def toInt64 (u : Nat) : Int :=
  if u % 2 ^ 64 < 2 ^ 63 then ((u % 2 ^ 64 : Nat) : Int)
  else ((u % 2 ^ 64 : Nat) : Int) - 2 ^ 64

/-- The C cast `(uint64_t)i` of a signed 64-bit value. -/
def u64ofInt (i : Int) : Nat := (i.emod (2 ^ 64)).toNat

/-- The C cast `(uint16_t)i` of a signed 64-bit value. -/
def u16ofInt (i : Int) : Nat := (i.emod (2 ^ 16)).toNat

/-- Sign extension of an 8-bit byte, the C cast `(int8_t)b`. -/
def sext8 (b : Nat) : Int :=
  if b % 256 < 128 then ((b % 256 : Nat) : Int) else ((b % 256 : Nat) : Int) - 256

/-- Sign extension of a 32-bit value, the C cast `(int32_t)u`. -/
def sext32 (u : Nat) : Int :=
  if u % 2 ^ 32 < 2 ^ 31 then ((u % 2 ^ 32 : Nat) : Int)
  else ((u % 2 ^ 32 : Nat) : Int) - 2 ^ 32

/-- Sign extension of a 16-bit value, the C cast `(int16_t)u`. -/
def sext16 (u : Nat) : Int :=
  if u % 2 ^ 16 < 2 ^ 15 then ((u % 2 ^ 16 : Nat) : Int)
  else ((u % 2 ^ 16 : Nat) : Int) - 2 ^ 16

/-! ## Forth code generator (src/codegen/forth_codegen.c)

Strings are modelled with Lean `String`; the dynamic string buffer
(`strbuf_t`) becomes string concatenation.  `printf`-style `%X`
formatting becomes `hexUpper` below.  C `NULL` string pointers become
`Option String` = `none`. -/

/-- `%X`: uppercase hexadecimal rendering with no leading zeros
(and `"0"` for zero), as produced by `printf("%X", n)`. -/
def hexUpper (n : Nat) : String :=
  String.mk ((Nat.toDigits 16 n).map Char.toUpper)

/-- `%02X`: as `hexUpper` but zero-padded to at least two digits. -/
def hexUpperPad2 (n : Nat) : String :=
  (if n < 16 then "0" else "") ++ hexUpper n

/-- `forth_dependency_t` in forth_codegen.h.  `words_used` is a
NULL-terminated `char**` in C, or NULL: `Option (List String)`. -/
structure forth_dependency_t where
  vocab_name : String
  words_used : Option (List String)

/-- `forth_codegen_opts_t` in forth_codegen.h.  Each `const char*`
field that emit_catalog_header null-tests is an `Option String`. -/
structure forth_codegen_opts_t where
  vocab_name : String
  category : Option String
  source_type : Option String
  source_binary : Option String
  vendor_id : Option String
  device_id : Option String
  ports_desc : Option String
  mmio_desc : Option String
  confidence : Option String
  requires : Option (List forth_dependency_t)

/-- `forth_port_op_t` in forth_codegen.h. -/
structure forth_port_op_t where
  port_offset : Nat
  size : Nat
  is_write : Bool
  name : Option String

/-- `forth_gen_function_t` in forth_codegen.h (`port_op_count` is the
length of the list). -/
structure forth_gen_function_t where
  name : String
  address : Nat
  port_ops : List forth_port_op_t
  is_init : Bool
  is_poll : Bool

/-- `forth_codegen_input_t` in forth_codegen.h. -/
structure forth_codegen_input_t where
  opts : forth_codegen_opts_t
  functions : List forth_gen_function_t
  port_offsets : List Nat

/-- `read_word_for_size` in forth_codegen.c. -/
def read_word_for_size (size : Nat) : String :=
  if size = 1 then "C@-PORT"
  else if size = 2 then "W@-PORT"
  else if size = 4 then "@-PORT"
  else "C@-PORT"

/-- `write_word_for_size` in forth_codegen.c. -/
def write_word_for_size (size : Nat) : String :=
  if size = 1 then "C!-PORT"
  else if size = 2 then "W!-PORT"
  else if size = 4 then "!-PORT"
  else "C!-PORT"

/-- One `\ KEY: value` line of the catalog header, the shape of each
`sb_printf(sb, "\\ KEY: %s\n", value)` call in emit_catalog_header. -/
def catalog_kv (key value : String) : String :=
  "\\ " ++ key ++ ": " ++ value ++ "\n"

/-- One `REQUIRES:` line (the `dep` loop body in emit_catalog_header);
the first word gets no leading space, later ones one space each. -/
def emit_requires_line (dep : forth_dependency_t) : String :=
  "\\ REQUIRES: " ++ dep.vocab_name ++ " ( " ++
    (match dep.words_used with
     | none => ""
     | some ws => String.intercalate " " ws) ++ " )\n"

/-- The `\ ====` border line used by emit_catalog_header. -/
def catalog_border : String :=
  "\\ " ++ String.mk (List.replicate 68 '=') ++ "\n"

/-- `emit_catalog_header` in forth_codegen.c (lines 94-122).  Note the
per-key fallbacks in the source: CATEGORY and SOURCE fall back to
`"unknown"`, CONFIDENCE to `"low"`, the rest to `"none"`. -/
def emit_catalog_header (opts : forth_codegen_opts_t) : String :=
  catalog_border ++
  catalog_kv "CATALOG" opts.vocab_name ++
  catalog_kv "CATEGORY" (opts.category.getD "unknown") ++
  catalog_kv "SOURCE" (opts.source_type.getD "unknown") ++
  catalog_kv "SOURCE-BINARY" (opts.source_binary.getD "none") ++
  catalog_kv "VENDOR-ID" (opts.vendor_id.getD "none") ++
  catalog_kv "DEVICE-ID" (opts.device_id.getD "none") ++
  catalog_kv "PORTS" (opts.ports_desc.getD "none") ++
  catalog_kv "MMIO" (opts.mmio_desc.getD "none") ++
  catalog_kv "CONFIDENCE" (opts.confidence.getD "low") ++
  (match opts.requires with
   | none => ""
   | some deps => String.join (deps.map emit_requires_line)) ++
  catalog_border ++ "\n"

/-- `emit_vocabulary_preamble` in forth_codegen.c. -/
def emit_vocabulary_preamble (name : String) : String :=
  "VOCABULARY " ++ name ++ "\n" ++ name ++ " DEFINITIONS\n" ++ "HEX\n\n"

/-- `emit_register_constants` in forth_codegen.c. -/
def emit_register_constants (offsets : List Nat) : String :=
  if offsets.length = 0 then ""
  else
    "\\ ---- Register Offsets (extracted from driver) ----\n" ++
    String.join (offsets.map fun o =>
      hexUpperPad2 o ++ " CONSTANT REG-" ++ hexUpperPad2 o ++ "\n") ++
    "\n"

/-- `emit_base_accessors` in forth_codegen.c. -/
def emit_base_accessors (name : String) : String :=
  "\\ ---- Hardware Base ----\n" ++
  "VARIABLE " ++ name ++ "-BASE\n\n" ++
  ": " ++ name ++ "-REG  ( offset -- port )  " ++ name ++ "-BASE @ + ;\n" ++
  ": " ++ name ++ "@     ( offset -- byte )  " ++ name ++ "-REG C@-PORT ;\n" ++
  ": " ++ name ++ "!     ( byte offset -- )  " ++ name ++ "-REG C!-PORT ;\n\n"

/-- One line of a port-operation body in `emit_function`. -/
def emit_port_op_line (op : forth_port_op_t) (vocab_name : String) : String :=
  "    " ++ hexUpperPad2 op.port_offset ++ " " ++ vocab_name ++ "-REG " ++
    (if op.is_write then write_word_for_size op.size
     else read_word_for_size op.size) ++ "\n"

/-- `emit_function` in forth_codegen.c.  The `port_op_count == 0` /
`== 1` / many distinction matches on the list of port operations. -/
def emit_function (func : forth_gen_function_t) (vocab_name : String) : String :=
  match func.port_ops with
  | [] =>
    ": " ++ func.name ++ "  ( -- )  \\ extracted from 0x" ++
      hexUpper func.address ++ "\n" ++ ";\n\n"
  | [op] =>
    (if op.is_write then
      ": " ++ func.name ++ "  ( value -- )\n"
     else
      ": " ++ func.name ++ "  ( -- value )\n") ++
    emit_port_op_line op vocab_name ++ ";\n\n"
  | _ :: _ :: _ =>
    ": " ++ func.name ++ "  ( -- )  \\ " ++ toString func.port_ops.length ++
      " port operations\n" ++
    String.join (func.port_ops.map (emit_port_op_line · vocab_name)) ++
    ";\n\n"

/-- `emit_footer` in forth_codegen.c. -/
def emit_footer : String := "FORTH DEFINITIONS\n" ++ "DECIMAL\n"

/-- `forth_generate` in forth_codegen.c (lines 210-249). -/
def forth_generate (input : forth_codegen_input_t) : String :=
  let has_ports := input.port_offsets.length > 0 ||
    input.functions.any (fun f => f.port_ops.length > 0)
  emit_catalog_header input.opts ++
  emit_vocabulary_preamble input.opts.vocab_name ++
  emit_register_constants input.port_offsets ++
  (if has_ports then emit_base_accessors input.opts.vocab_name else "") ++
  (if input.functions.length > 0 then
    "\\ ---- Extracted Functions ----\n" ++
    String.join (input.functions.map (emit_function · input.opts.vocab_name))
   else "") ++
  emit_footer

/-- `forth_port_range_desc` in forth_codegen.c (lines 251-262).  The
`snprintf` into a 32-byte buffer never truncates (max 21 characters),
so it is modelled as plain formatting.  `base_port + register_count - 1`
is computed in `size_t` and printed through the cast `(unsigned)`,
hence the `% 2^32`. -/
def forth_port_range_desc (base_port : Nat) (register_count : Nat) : String :=
  if register_count ≤ 1 then
    "0x" ++ hexUpper base_port
  else
    "0x" ++ hexUpper base_port ++ "-0x" ++
      hexUpper ((base_port + register_count - 1) % 2 ^ 32)

/-- `forth_codegen_opts_init` in forth_codegen.c (lines 264-272).
`memset` leaves `category` and `requires` NULL; `vocab_name` is also
left NULL in C (modelled as the empty string, never rendered by the
claims considered here). -/
def forth_codegen_opts_init : forth_codegen_opts_t :=
  { vocab_name := ""
    category := none
    source_type := some "extracted"
    source_binary := none
    vendor_id := some "none"
    device_id := some "none"
    ports_desc := some "none"
    mmio_desc := some "none"
    confidence := some "low"
    requires := none }

/-- The port-range description as the spec sentence for claim C8 words
it: the single-port form exactly when the count equals 1, the range
form for every other count (including zero). -/
def forth_port_range_desc_spec (base_port : Nat) (register_count : Nat) : String :=
  if register_count = 1 then
    "0x" ++ hexUpper base_port
  else
    "0x" ++ hexUpper base_port ++ "-0x" ++
      hexUpper ((base_port + register_count - 1) % 2 ^ 32)

/-- The port-range description as the source actually computes it: the
single-port form for every count `≤ 1` (so also for count 0), the range
form only for counts `≥ 2`. -/
def forth_port_range_desc_amended (base_port : Nat) : Nat → String
  | 0 => "0x" ++ hexUpper base_port
  | 1 => "0x" ++ hexUpper base_port
  | n + 2 => "0x" ++ hexUpper base_port ++ "-0x" ++
      hexUpper ((base_port + (n + 2) - 1) % 2 ^ 32)

/-- Options with every optional field absent (NULL in C), used to
exercise the fallback values of `emit_catalog_header`. -/
def c3_opts : forth_codegen_opts_t :=
  { vocab_name := "V"
    category := none
    source_type := none
    source_binary := none
    vendor_id := none
    device_id := none
    ports_desc := none
    mmio_desc := none
    confidence := none
    requires := none }

/-- Codegen input carrying `c3_opts` and no functions or ports. -/
def c3_input : forth_codegen_input_t :=
  { opts := c3_opts, functions := [], port_offsets := [] }

/-! ## PE loader (src/loaders/pe_loader.c)

The byte slice is `(data : Nat → Nat, size : Nat)`; pointers into the
slice become byte offsets (`Option Nat` where C uses NULL).  C strings
(`strdup` results) become the list of bytes up to the first NUL;
reading stops at the end of the slice.  `uint32_t` arithmetic wraps
with `% 2^32` where the C source can overflow. -/

/-- `bounds_check` in pe_loader.c (the second conjunct guards size_t
overflow in C; it is vacuous over Nat but kept as in the source). -/
def bounds_check (data_size offset read_size : Nat) : Prop :=
  offset + read_size ≤ data_size ∧ offset + read_size ≥ offset

instance (data_size offset read_size : Nat) :
    Decidable (bounds_check data_size offset read_size) :=
  inferInstanceAs (Decidable (_ ∧ _))

/-- The bytes of a NUL-terminated C string starting at `off` (what
`strdup` copies); reading is cut off at the end of the slice. -/
def readCStringGo (data : Nat → Nat) (size : Nat) : Nat → Nat → List Nat
  | 0, _ => []
  | fuel + 1, off =>
    if off < size ∧ byteAt data off ≠ 0 then
      byteAt data off :: readCStringGo data size fuel (off + 1)
    else []

/-- A NUL-terminated C string at offset `off` of the slice. -/
def readCString (data : Nat → Nat) (size off : Nat) : List Nat :=
  readCStringGo data size (size - off) off

/-- `pe_section_t` in pe_loader.h; `name` is the 8 raw header bytes
(the terminating NUL the loader appends is a representation detail). -/
structure pe_section_t where
  name : List Nat
  virtual_size : Nat
  virtual_address : Nat
  raw_data_size : Nat
  raw_data_offset : Nat
  characteristics : Nat
deriving DecidableEq

/-- `pe_import_t` in pe_loader.h. -/
structure pe_import_t where
  dll_name : List Nat
  func_name : Option (List Nat)
  ordinal : Nat
  iat_rva : Nat
deriving DecidableEq

/-- `pe_export_t` in pe_loader.h. -/
structure pe_export_t where
  name : List Nat
  ordinal : Nat
  rva : Nat
deriving DecidableEq

/-- `pe_context_t` in pe_loader.h.  Pointer fields that can be NULL
(`sections`, `imports`, `exports`, `text_data`) are `Option`s; the
`text_data` pointer into the raw data becomes a byte offset. -/
structure pe_context_t where
  data : Nat → Nat
  data_size : Nat
  machine : Nat
  is_64bit : Bool
  image_base : Nat
  entry_point_rva : Nat
  sections : Option (List pe_section_t)
  section_count : Nat
  text_data : Option Nat
  text_size : Nat
  text_rva : Nat
  imports : Option (List pe_import_t)
  import_count : Nat
  exports : Option (List pe_export_t)
  export_count : Nat

/-- `pe_rva_to_ptr` in pe_loader.c (lines 41-53), over the section
list and the slice length: linear scan; a section whose raw range
covers the RVA but whose computed file offset is out of range is
skipped and the scan continues, as in the source.  The additions
`virtual_address + raw_data_size` and
`raw_data_offset + (rva - virtual_address)` are `uint32_t`. -/
def pe_rva_to_ptr_sections (data_size : Nat) :
    List pe_section_t → Nat → Option Nat
  | [], _ => none
  | s :: rest, rva =>
    if s.virtual_address ≤ rva ∧
        rva < (s.virtual_address + s.raw_data_size) % 2 ^ 32 then
      let file_offset := (s.raw_data_offset + (rva - s.virtual_address)) % 2 ^ 32
      if file_offset < data_size then some file_offset
      else pe_rva_to_ptr_sections data_size rest rva
    else pe_rva_to_ptr_sections data_size rest rva

/-- `pe_rva_to_ptr` on a loaded context. -/
def pe_rva_to_ptr (ctx : pe_context_t) (rva : Nat) : Option Nat :=
  pe_rva_to_ptr_sections ctx.data_size (ctx.sections.getD []) rva

/-- One 40-byte section header read in `parse_sections`
(pe_loader.c lines 92-101; field offsets from pe_format.h). -/
def section_from_header (data : Nat → Nat) (off : Nat) : pe_section_t :=
  { name := [byteAt data off, byteAt data (off + 1), byteAt data (off + 2),
             byteAt data (off + 3), byteAt data (off + 4), byteAt data (off + 5),
             byteAt data (off + 6), byteAt data (off + 7)]
    virtual_size := read32 data (off + 8)
    virtual_address := read32 data (off + 12)
    raw_data_size := read32 data (off + 16)
    raw_data_offset := read32 data (off + 20)
    characteristics := read32 data (off + 36) }

/-- The `.text` identification step of `parse_sections` (pe_loader.c
lines 103-117): first CODE+EXECUTE section whose chosen size passes
the bounds check becomes `(raw offset, text size, rva)`. -/
def parse_sections_text_step (size : Nat) (s : pe_section_t)
    (text : Option (Nat × Nat × Nat)) : Option (Nat × Nat × Nat) :=
  if s.characteristics &&& 0x20 ≠ 0 ∧ s.characteristics &&& 0x20000000 ≠ 0 then
    match text with
    | some t => some t
    | none =>
      let text_size :=
        if s.virtual_size = 0 ∨ s.virtual_size > s.raw_data_size then
          s.raw_data_size
        else s.virtual_size
      if bounds_check size s.raw_data_offset text_size then
        some (s.raw_data_offset, text_size, s.virtual_address)
      else none
  else text

/-- The loop of `parse_sections` (pe_loader.c lines 86-118); `none` is
the `-1` bounds failure. -/
def parse_sections_go (data : Nat → Nat) (size sec_off : Nat) :
    Nat → Nat → List pe_section_t → Option (Nat × Nat × Nat) →
    Option (List pe_section_t × Option (Nat × Nat × Nat))
  | 0, _, acc, text => some (acc.reverse, text)
  | fuel + 1, i, acc, text =>
    let off := sec_off + i * 40
    if bounds_check size off 40 then
      let s := section_from_header data off
      parse_sections_go data size sec_off fuel (i + 1) (s :: acc)
        (parse_sections_text_step size s text)
    else none

/-- `parse_sections` in pe_loader.c (lines 80-120). -/
def parse_sections (data : Nat → Nat) (size sec_off count : Nat) :
    Option (List pe_section_t × Option (Nat × Nat × Nat)) :=
  parse_sections_go data size sec_off count 0 [] none

/-- The descriptor-counting loop of `parse_imports` (pe_loader.c lines
129-141).  Every iteration either returns or increments `desc_count`,
and the loop stops once `desc_count` exceeds 1000, so 1002 units of
fuel always suffice.  Descriptor `i` lives at RVA
`import_dir_rva + (uint32_t)(i * 20)` (uint32 arithmetic). -/
def import_desc_count_go (data : Nat → Nat) (size : Nat)
    (sections : List pe_section_t) (import_rva : Nat) :
    Nat → Nat → Nat → Nat
  | 0, _, desc_count => desc_count
  | fuel + 1, i, desc_count =>
    match pe_rva_to_ptr_sections size sections
        ((import_rva + (i * 20) % 2 ^ 32) % 2 ^ 32) with
    | none => desc_count
    | some dp =>
      if read32 data (dp + 12) = 0 ∧ read32 data dp = 0 then desc_count
      else if desc_count + 1 > 1000 then desc_count + 1
      else import_desc_count_go data size sections import_rva fuel (i + 1)
        (desc_count + 1)

/-- Number of import descriptors the loader will process (the
`desc_count` of pe_loader.c line 129). -/
def import_desc_count (data : Nat → Nat) (size : Nat)
    (sections : List pe_section_t) (import_rva : Nat) : Nat :=
  import_desc_count_go data size sections import_rva 1002 0 0

/-- One import record assembled at entry `entry` (pe_loader.c lines
189-208): ordinal import when the ordinal flag is set, otherwise a
hint/name lookup (which leaves the `memset` zeros when the hint RVA
does not resolve). -/
def import_from_entry (data : Nat → Nat) (size : Nat)
    (sections : List pe_section_t) (is_64bit : Bool)
    (dll_name : List Nat) (iat_slot entry : Nat) : pe_import_t :=
  let ordinal_flag : Nat := if is_64bit then 2 ^ 63 else 2 ^ 31
  if entry &&& ordinal_flag ≠ 0 then
    { dll_name := dll_name, func_name := none,
      ordinal := entry &&& 0xFFFF, iat_rva := iat_slot }
  else
    match pe_rva_to_ptr_sections size sections (entry &&& 0x7FFFFFFF) with
    | some hn =>
      { dll_name := dll_name,
        func_name := some (readCString data size (hn + 2)),
        ordinal := read16 data hn, iat_rva := iat_slot }
    | none =>
      { dll_name := dll_name, func_name := none, ordinal := 0,
        iat_rva := iat_slot }

/-- The lookup-table walk of `parse_imports` (pe_loader.c lines
168-211).  Every iteration either returns or increments `count`, and
the loop stops once `count` exceeds 10000, so 10002 units of fuel
always suffice.  Entry `j` lives at `ilt_rva + j * entry_size` and the
recorded IAT slot is `iat_rva + j * entry_size` (uint32 arithmetic). -/
def import_entries_go (data : Nat → Nat) (size : Nat)
    (sections : List pe_section_t) (is_64bit : Bool)
    (ilt_rva iat_rva : Nat) (dll_name : List Nat) :
    Nat → Nat → Nat → List pe_import_t → Nat × List pe_import_t
  | 0, _, count, acc => (count, acc)
  | fuel + 1, j, count, acc =>
    let entry_size : Nat := if is_64bit then 8 else 4
    match pe_rva_to_ptr_sections size sections
        ((ilt_rva + (j * entry_size) % 2 ^ 32) % 2 ^ 32) with
    | none => (count, acc)
    | some ep =>
      let entry := if is_64bit then read64 data ep else read32 data ep
      if entry = 0 then (count, acc)
      else
        let iat_slot := (iat_rva + (j * entry_size) % 2 ^ 32) % 2 ^ 32
        let imp := import_from_entry data size sections is_64bit dll_name
          iat_slot entry
        if count + 1 > 10000 then (count + 1, acc ++ [imp])
        else import_entries_go data size sections is_64bit ilt_rva iat_rva
          dll_name fuel (j + 1) (count + 1) (acc ++ [imp])

/-- The per-descriptor loop of `parse_imports` (pe_loader.c lines
151-212), running over exactly `desc_count` descriptors; `continue`
paths leave the accumulator unchanged.  The descriptor pointer always
resolves for indices below `desc_count` (the counting loop resolved
them); the unreachable `none` case is treated as a skip. -/
def import_process_go (data : Nat → Nat) (size : Nat)
    (sections : List pe_section_t) (is_64bit : Bool) (import_rva : Nat) :
    Nat → Nat → Nat × List pe_import_t → Nat × List pe_import_t
  | 0, _, st => st
  | fuel + 1, d, st =>
    match pe_rva_to_ptr_sections size sections
        ((import_rva + (d * 20) % 2 ^ 32) % 2 ^ 32) with
    | none => import_process_go data size sections is_64bit import_rva fuel
        (d + 1) st
    | some dp =>
      match pe_rva_to_ptr_sections size sections (read32 data (dp + 12)) with
      | none => import_process_go data size sections is_64bit import_rva fuel
          (d + 1) st
      | some dnp =>
        let dll_name := readCString data size dnp
        let ilt0 := read32 data dp
        let ilt_rva := if ilt0 = 0 then read32 data (dp + 16) else ilt0
        if ilt_rva = 0 then
          import_process_go data size sections is_64bit import_rva fuel
            (d + 1) st
        else
          let iat_rva := read32 data (dp + 16)
          import_process_go data size sections is_64bit import_rva fuel
            (d + 1)
            (import_entries_go data size sections is_64bit ilt_rva iat_rva
              dll_name 10002 0 st.1 st.2)

/-- `parse_imports` in pe_loader.c (lines 124-217): the resulting
`(imports, import_count)` context fields.  The early-return paths
leave `imports` NULL (`none`); allocation failures cannot occur in the
model. -/
def pe_parse_imports (data : Nat → Nat) (size : Nat)
    (sections : List pe_section_t) (is_64bit : Bool)
    (import_rva import_size : Nat) : Option (List pe_import_t) × Nat :=
  if import_rva = 0 ∨ import_size = 0 then (none, 0)
  else
    let desc_count := import_desc_count data size sections import_rva
    if desc_count = 0 then (none, 0)
    else
      let st := import_process_go data size sections is_64bit import_rva
        desc_count 0 (0, [])
      (some st.2, st.1)

/-- The name-walking loop of `parse_exports` (pe_loader.c lines
245-258); `continue` skips names whose RVA does not resolve. -/
def export_names_go (data : Nat → Nat) (size : Nat)
    (sections : List pe_section_t)
    (names_off ords_off funcs_off ordinal_base : Nat) :
    Nat → Nat → List pe_export_t → List pe_export_t
  | 0, _, acc => acc
  | fuel + 1, i, acc =>
    let name_rva := read32 data (names_off + i * 4)
    let ord_idx := read16 data (ords_off + i * 2)
    let func_rva := read32 data (funcs_off + ord_idx * 4)
    match pe_rva_to_ptr_sections size sections name_rva with
    | none => export_names_go data size sections names_off ords_off funcs_off
        ordinal_base fuel (i + 1) acc
    | some np =>
      export_names_go data size sections names_off ords_off funcs_off
        ordinal_base fuel (i + 1)
        (acc ++ [{ name := readCString data size np,
                   ordinal := (ordinal_base + ord_idx) % 2 ^ 32,
                   rva := func_rva }])

/-- `parse_exports` in pe_loader.c (lines 221-262): the resulting
`(exports, export_count)` context fields.  Note that once the export
array is allocated the function can still return with zero entries
(`exports = some []`). -/
def pe_parse_exports (data : Nat → Nat) (size : Nat)
    (sections : List pe_section_t) (export_rva export_size : Nat) :
    Option (List pe_export_t) × Nat :=
  if export_rva = 0 ∨ export_size = 0 then (none, 0)
  else
    match pe_rva_to_ptr_sections size sections export_rva with
    | none => (none, 0)
    | some ep =>
      let num_names := read32 data (ep + 24)
      let num_funcs := read32 data (ep + 20)
      if num_names = 0 ∧ num_funcs = 0 then (none, 0)
      else if num_names > 10000 ∨ num_funcs > 10000 then (none, 0)
      else if num_names > 0 then
        match pe_rva_to_ptr_sections size sections (read32 data (ep + 32)),
            pe_rva_to_ptr_sections size sections (read32 data (ep + 36)),
            pe_rva_to_ptr_sections size sections (read32 data (ep + 28)) with
        | some names_off, some ords_off, some funcs_off =>
          let entries := export_names_go data size sections names_off ords_off
            funcs_off (read32 data (ep + 16)) num_names 0 []
          (some entries, entries.length)
        | _, _, _ => (some [], 0)
      else (some [], 0)

/-- The header fields `pe_load` extracts before parsing sections
(pe_loader.c lines 266-354): DOS magic, PE signature, COFF header and
the PE32 / PE32+ optional header, with all the source's bounds checks.
Field offsets follow pe_format.h (PE32 optional header is 96 bytes,
PE32+ is 112, data directories follow immediately). -/
structure pe_headers_t where
  machine : Nat
  num_sections : Nat
  opt_header_size : Nat
  opt_offset : Nat
  is_64bit : Bool
  image_base : Nat
  entry_point_rva : Nat
  num_dirs : Nat
  dirs_off : Nat

/-- Header parsing of `pe_load`; `none` is the `-1` error. -/
def pe_parse_headers (data : Nat → Nat) (size : Nat) : Option pe_headers_t :=
  if size < 64 then none
  else if read16 data 0 ≠ 0x5A4D then none
  else
    let pe_offset := read32 data 60
    if ¬ bounds_check size pe_offset 24 then none
    else if read32 data pe_offset ≠ 0x4550 then none
    else
      let machine := read16 data (pe_offset + 4)
      let num_sections := read16 data (pe_offset + 6)
      let opt_header_size := read16 data (pe_offset + 20)
      let opt_offset := pe_offset + 24
      if ¬ bounds_check size opt_offset 2 then none
      else
        let opt_magic := read16 data opt_offset
        if opt_magic = 0x10B then
          if ¬ bounds_check size opt_offset 96 then none
          else some
            { machine := machine, num_sections := num_sections,
              opt_header_size := opt_header_size, opt_offset := opt_offset,
              is_64bit := false,
              image_base := read32 data (opt_offset + 28),
              entry_point_rva := read32 data (opt_offset + 16),
              num_dirs := min (read32 data (opt_offset + 92)) 16,
              dirs_off := opt_offset + 96 }
        else if opt_magic = 0x20B then
          if ¬ bounds_check size opt_offset 112 then none
          else some
            { machine := machine, num_sections := num_sections,
              opt_header_size := opt_header_size, opt_offset := opt_offset,
              is_64bit := true,
              image_base := read64 data (opt_offset + 24),
              entry_point_rva := read32 data (opt_offset + 16),
              num_dirs := min (read32 data (opt_offset + 108)) 16,
              dirs_off := opt_offset + 112 }
        else none

/-- `pe_load` in pe_loader.c (lines 266-357).  The return values of
`parse_imports` / `parse_exports` are ignored by the source exactly as
here (their only failure mode is allocation). -/
def pe_load (data : Nat → Nat) (size : Nat) : Option pe_context_t :=
  match pe_parse_headers data size with
  | none => none
  | some h =>
    match parse_sections data size (h.opt_offset + h.opt_header_size)
        h.num_sections with
    | none => none
    | some (secs, text) =>
      let imps :=
        if h.num_dirs > 1 then
          pe_parse_imports data size secs h.is_64bit
            (read32 data (h.dirs_off + 8)) (read32 data (h.dirs_off + 12))
        else (none, 0)
      let exps :=
        if h.num_dirs > 0 then
          pe_parse_exports data size secs
            (read32 data h.dirs_off) (read32 data (h.dirs_off + 4))
        else (none, 0)
      some
        { data := data, data_size := size, machine := h.machine,
          is_64bit := h.is_64bit, image_base := h.image_base,
          entry_point_rva := h.entry_point_rva,
          sections := some secs, section_count := h.num_sections,
          text_data := text.map (fun t => t.1),
          text_size := (text.map (fun t => t.2.1)).getD 0,
          text_rva := (text.map (fun t => t.2.2)).getD 0,
          imports := imps.1, import_count := imps.2,
          exports := exps.1, export_count := exps.2 }

/-- The number of import DLL descriptors `pe_load` processes on a
given input (the `desc_count` of parse_imports along pe_load's call
path; 0 when no import directory is walked). -/
def pe_import_descriptors_processed (data : Nat → Nat) (size : Nat) : Nat :=
  match pe_parse_headers data size with
  | none => 0
  | some h =>
    match parse_sections data size (h.opt_offset + h.opt_header_size)
        h.num_sections with
    | none => 0
    | some (secs, _) =>
      if h.num_dirs > 1 then
        let import_rva := read32 data (h.dirs_off + 8)
        let import_size := read32 data (h.dirs_off + 12)
        if import_rva = 0 ∨ import_size = 0 then 0
        else import_desc_count data size secs import_rva
      else 0

/-- `pe_cleanup` in pe_loader.c (lines 361-386).  The second component
counts the `free` calls performed: one per section/import/export
array, one per import DLL-name string and (possibly NULL) import
function-name string, one per export name string. -/
def pe_cleanup (ctx : pe_context_t) : pe_context_t × Nat :=
  let section_frees := match ctx.sections with
    | some _ => 1
    | none => 0
  let import_frees := match ctx.imports with
    | some _ => 2 * ctx.import_count + 1
    | none => 0
  let export_frees := match ctx.exports with
    | some _ => ctx.export_count + 1
    | none => 0
  ({ ctx with
      sections := none, imports := none, exports := none,
      text_data := none, text_size := 0,
      import_count := 0, export_count := 0, section_count := 0 },
   section_frees + import_frees + export_frees)

/-! ## Claim C1 -/

/-- A 224-byte PE32 image with one section whose header is in bounds
but whose raw data range (`raw_data_offset = 0x10000`,
`raw_data_size = 0x10`) lies far outside the slice.  `pe_load`
accepts it. -/
def c1_data : Nat → Nat := fun o =>
  if o = 0 then 0x4D else if o = 1 then 0x5A
  else if o = 60 then 0x40
  else if o = 64 then 0x50 else if o = 65 then 0x45
  else if o = 68 then 0x4C else if o = 69 then 1
  else if o = 70 then 1
  else if o = 84 then 96
  else if o = 88 then 0x0B else if o = 89 then 1
  else if o = 197 then 0x10
  else if o = 200 then 0x10
  else if o = 206 then 1
  else 0

/-- A 224-byte PE32 image accepted by `pe_load` whose single section
is a valid in-bounds `.text` section (raw range `[208, 224)`,
CODE+EXECUTE flags, virtual size 1). -/
def c1b_data : Nat → Nat := fun o =>
  if o = 0 then 0x4D else if o = 1 then 0x5A
  else if o = 60 then 0x40
  else if o = 64 then 0x50 else if o = 65 then 0x45
  else if o = 68 then 0x4C else if o = 69 then 1
  else if o = 70 then 1
  else if o = 84 then 96
  else if o = 88 then 0x0B else if o = 89 then 1
  else if o = 192 then 1
  else if o = 197 then 0x10
  else if o = 200 then 0x10
  else if o = 204 then 0xD0
  else if o = 220 then 0x20
  else if o = 223 then 0x20
  else 0

/-- The context `pe_load` produces on `c1b_data`. -/
def c1b_ctx : pe_context_t :=
  { data := c1b_data, data_size := 224, machine := 0x14C,
    is_64bit := false, image_base := 0, entry_point_rva := 0,
    sections := some [{ name := [0, 0, 0, 0, 0, 0, 0, 0],
                        virtual_size := 1, virtual_address := 0x1000,
                        raw_data_size := 16, raw_data_offset := 208,
                        characteristics := 0x20000020 }],
    section_count := 1,
    text_data := some 208, text_size := 1, text_rva := 0x1000,
    imports := none, import_count := 0,
    exports := none, export_count := 0 }

/-- A PE32 image whose import directory holds 1001 non-terminator
descriptors (20 bytes each, all pointing at the same DLL name `"A"`
and the same one-entry lookup table).  `pe_load` accepts it and its
descriptor-counting loop runs to the 1001 cap. -/
def c4_desc_byte (r : Nat) : Nat :=
  if r = 1 then 0x70 else if r = 13 then 0x60 else if r = 17 then 0x70 else 0

/-- The 28936-byte slice for the C4 counterexample: one section
(RVA 0x1000, raw offset 0x100, raw size 0x7000), import directory at
RVA 0x1000 with 1001 identical descriptors (lookup table RVA 0x7000,
DLL-name RVA 0x6000), DLL name `"A"`, one ordinal import entry. -/
def c4_data : Nat → Nat := fun o =>
  if 256 ≤ o ∧ o < 20276 then c4_desc_byte ((o - 256) % 20)
  else if o = 20736 then 0x41
  else if o = 24835 then 0x80
  else if o = 0 then 0x4D else if o = 1 then 0x5A
  else if o = 60 then 0x40
  else if o = 64 then 0x50 else if o = 65 then 0x45
  else if o = 68 then 0x4C else if o = 69 then 1
  else if o = 70 then 1
  else if o = 84 then 0x70
  else if o = 88 then 0x0B else if o = 89 then 1
  else if o = 180 then 2
  else if o = 193 then 0x10
  else if o = 197 then 0x10
  else if o = 213 then 0x10
  else if o = 217 then 0x70
  else if o = 221 then 1
  else 0

/-! ## x86 decoder (src/decoders/x86_decoder.c)

The decoder context owns the cursor (`offset`); every helper that eats
bytes returns the updated context.  The read helpers advance
unconditionally, exactly as the C helpers do (they perform no bounds
check of their own).  `x86_decode_one` returns the updated context and
`none` for the two early-out paths that return 0 without producing an
instruction; on the main path it returns the decoded record, whose
`length` field is the `uint8_t` cast of the bytes consumed. -/

/-- `x86_instruction_t` in x86_decoder.h. -/
inductive x86_instruction_t where
  | UNKNOWN
  | MOV | MOVZX | MOVSX | LEA | XCHG | PUSH | POP | PUSHAD | POPAD
  | ADD | SUB | ADC | SBB | INC | DEC | NEG | MUL | IMUL | DIV | IDIV | CMP
  | AND | OR | XOR | NOT | TEST | SHL | SHR | SAR | ROL | ROR
  | JMP | JCC | CALL | RET | LOOP | INT
  | IN | OUT | INS | OUTS
  | CLI | STI | HLT | NOP | LEAVE | CLD | STD | CDQ | CBW
  | REP_MOVSB | REP_MOVSD | REP_STOSB | REP_STOSD
  | SETCC
deriving DecidableEq

/-- `x86_operand_type_t` in x86_decoder.h. -/
inductive x86_operand_type_t where
  | NONE | REG | MEM | IMM | REL
deriving DecidableEq

/-- `x86_operand_t` in x86_decoder.h. -/
structure x86_operand_t where
  type : x86_operand_type_t
  size : Nat
  reg : Int
  base : Int
  index : Int
  scale : Nat
  disp : Int
  imm : Int
deriving DecidableEq

/-- The all-zero operand (`memset(out, 0, ...)`). -/
def zero_operand : x86_operand_t :=
  { type := .NONE, size := 0, reg := 0, base := 0, index := 0, scale := 0,
    disp := 0, imm := 0 }

/-- `x86_decoded_t` in x86_decoder.h (`operands[4]` as four fields). -/
structure x86_decoded_t where
  address : Nat
  length : Nat
  instruction : x86_instruction_t
  operand_count : Nat
  op0 : x86_operand_t
  op1 : x86_operand_t
  op2 : x86_operand_t
  op3 : x86_operand_t
  prefixes : Nat
  cc : Nat
deriving DecidableEq

instance : Inhabited x86_decoded_t :=
  ⟨{ address := 0, length := 0, instruction := .UNKNOWN, operand_count := 0,
     op0 := zero_operand, op1 := zero_operand, op2 := zero_operand,
     op3 := zero_operand, prefixes := 0, cc := 0 }⟩

/-- `operands[i]` of a decoded instruction. -/
def x86_decoded_t.operand (out : x86_decoded_t) (i : Nat) : x86_operand_t :=
  if i = 0 then out.op0
  else if i = 1 then out.op1
  else if i = 2 then out.op2
  else out.op3

/-- `x86_decoder_t` in x86_decoder.h (mode is carried but unused by
the decode logic, as in the source). -/
structure x86_decoder_t where
  mode : Nat
  code : Nat → Nat
  code_size : Nat
  base_address : Nat
  offset : Nat

/-- `peek` in x86_decoder.c. -/
def peek (dec : x86_decoder_t) : Nat := byteAt dec.code dec.offset

/-- `has_bytes` in x86_decoder.c. -/
def has_bytes (dec : x86_decoder_t) (n : Nat) : Bool :=
  dec.offset + n ≤ dec.code_size

/-- Advance the cursor by `n` bytes (the `dec->offset += n` updates of
the read helpers). -/
def dec_adv (dec : x86_decoder_t) (n : Nat) : x86_decoder_t :=
  { dec with offset := dec.offset + n }

/-- `eat` in x86_decoder.c: the byte at the cursor, cursor advanced. -/
def eat (dec : x86_decoder_t) : x86_decoder_t × Nat :=
  (dec_adv dec 1, peek dec)

/-- `read_i8` in x86_decoder.c: `(int8_t)eat(dec)`. -/
def read_i8 (dec : x86_decoder_t) : x86_decoder_t × Int :=
  (dec_adv dec 1, sext8 (peek dec))

/-- `read_u16` in x86_decoder.c. -/
def read_u16 (dec : x86_decoder_t) : x86_decoder_t × Nat :=
  (dec_adv dec 2, read16 dec.code dec.offset)

/-- `read_i32` in x86_decoder.c. -/
def read_i32 (dec : x86_decoder_t) : x86_decoder_t × Int :=
  (dec_adv dec 4, sext32 (read32 dec.code dec.offset))

/-- `read_u32` in x86_decoder.c: the same bits, unsigned. -/
def read_u32 (dec : x86_decoder_t) : x86_decoder_t × Nat :=
  (dec_adv dec 4, read32 dec.code dec.offset)

/-- The resolved absolute branch target
`(int64_t)(dec->base_address + dec->offset) + rel` (uint64 wrap, then
a signed 64-bit read of the sum). -/
def rel_target (dec : x86_decoder_t) (rel : Int) : Int :=
  toInt64 ((dec.base_address + dec.offset) % 2 ^ 64) + rel

/-- A register operand of the given size. -/
def reg_operand (r : Nat) (sz : Nat) : x86_operand_t :=
  { zero_operand with type := .REG, reg := (r : Int), size := sz }

/-- An immediate operand of the given size. -/
def imm_operand (v : Int) (sz : Nat) : x86_operand_t :=
  { zero_operand with type := .IMM, imm := v, size := sz }

/-- `decode_modrm` in x86_decoder.c (lines 71-128): returns the new
cursor, the r/m operand and the `reg` field. -/
def decode_modrm (dec : x86_decoder_t) (op_size : Nat) :
    x86_decoder_t × x86_operand_t × Nat :=
  let modrm := peek dec
  let d1 := dec_adv dec 1
  let md := (modrm >>> 6) &&& 3
  let reg := (modrm >>> 3) &&& 7
  let rm := modrm &&& 7
  if md = 3 then
    (d1, { zero_operand with type := .REG, reg := (rm : Int), size := op_size },
     reg)
  else
    let mem0 : x86_operand_t :=
      { zero_operand with type := .MEM, size := op_size, base := -1,
                          index := -1, scale := 1, disp := 0 }
    let step1 : x86_decoder_t × x86_operand_t :=
      if rm = 4 then
        let sib := peek d1
        let d2 := dec_adv d1 1
        let scale := (sib >>> 6) &&& 3
        let index := (sib >>> 3) &&& 7
        let base := sib &&& 7
        let op1 := { mem0 with scale := 1 <<< scale,
                               index := if index ≠ 4 then (index : Int) else -1 }
        if base = 5 ∧ md = 0 then
          let (d3, disp) := read_i32 d2
          (d3, { op1 with disp := disp })
        else (d2, { op1 with base := (base : Int) })
      else if rm = 5 ∧ md = 0 then
        let (d2, disp) := read_i32 d1
        (d2, { mem0 with disp := disp })
      else (d1, { mem0 with base := (rm : Int) })
    if md = 1 then
      let (d3, disp) := read_i8 step1.1
      (d3, { step1.2 with disp := disp }, reg)
    else if md = 2 then
      let (d3, disp) := read_i32 step1.1
      (d3, { step1.2 with disp := disp }, reg)
    else (step1.1, step1.2, reg)

/-- `group1_ops` table in x86_decoder.c (index is a 3-bit field). -/
def group1_ops (r : Nat) : x86_instruction_t :=
  match r with
  | 0 => .ADD | 1 => .OR | 2 => .ADC | 3 => .SBB
  | 4 => .AND | 5 => .SUB | 6 => .XOR | _ => .CMP

/-- `group3_ops` table in x86_decoder.c. -/
def group3_ops (r : Nat) : x86_instruction_t :=
  match r with
  | 0 => .TEST | 1 => .TEST | 2 => .NOT | 3 => .NEG
  | 4 => .MUL | 5 => .IMUL | 6 => .DIV | _ => .IDIV

/-- `group5_ops` table in x86_decoder.c. -/
def group5_ops (r : Nat) : x86_instruction_t :=
  match r with
  | 0 => .INC | 1 => .DEC | 2 => .CALL | 3 => .CALL
  | 4 => .JMP | 5 => .JMP | 6 => .PUSH | _ => .UNKNOWN

/-- `shift_ops` table in x86_decoder.c. -/
def shift_ops (r : Nat) : x86_instruction_t :=
  match r with
  | 0 => .ROL | 1 => .ROR | 2 => .UNKNOWN | 3 => .UNKNOWN
  | 4 => .SHL | 5 => .SHR | 6 => .UNKNOWN | _ => .SAR

/-- The shift-table fixup `if (== UNKNOWN) = SHL` of the C0/C1/D0-D3
handlers. -/
def shift_op_fix (i : x86_instruction_t) : x86_instruction_t :=
  if i = .UNKNOWN then .SHL else i

/-- The prefix-scanning loop of `x86_decode_one` (lines 166-184).
Fuel is `code_size - offset` at entry: each iteration either stops or
consumes one byte, and the loop stops when `has_bytes` fails, so this
fuel is exactly enough. -/
def prefix_scan : x86_decoder_t → Nat → Nat → x86_decoder_t × Nat
  | dec, 0, pfx => (dec, pfx)
  | dec, fuel + 1, pfx =>
    if has_bytes dec 1 then
      let b := peek dec
      if b = 0xF3 then prefix_scan (dec_adv dec 1) fuel (pfx ||| 0x01)
      else if b = 0xF2 then prefix_scan (dec_adv dec 1) fuel (pfx ||| 0x02)
      else if b = 0xF0 then prefix_scan (dec_adv dec 1) fuel (pfx ||| 0x04)
      else if b = 0x66 then prefix_scan (dec_adv dec 1) fuel (pfx ||| 0x08)
      else if b = 0x67 then prefix_scan (dec_adv dec 1) fuel (pfx ||| 0x10)
      else if b = 0x26 ∨ b = 0x2E ∨ b = 0x36 ∨ b = 0x3E ∨ b = 0x64 ∨ b = 0x65
        then prefix_scan (dec_adv dec 1) fuel pfx
      else (dec, pfx)
    else (dec, pfx)

/-- The case-label groups of the two-byte (`0F`) switch in
x86_decoder.c, as a classification of the second opcode byte.  The
C `switch` is modelled as this classifier plus a dispatch on the
class so that proofs can case on the classification. -/
inductive x86_op_class_0F where
  | cls0F_jcc | cls0F_setcc | cls0F_movzx8 | cls0F_movzx16
  | cls0F_movsx8 | cls0F_movsx16 | cls0F_imul | cls0F_unknown
deriving DecidableEq

/-- Which two-byte case group a second opcode byte falls in
(the case labels of lines 866-946). -/
def x86_op_class_0F_of (op2 : Nat) : x86_op_class_0F :=
  match op2 with
  | 0x80 | 0x81 | 0x82 | 0x83 | 0x84 | 0x85 | 0x86 | 0x87
  | 0x88 | 0x89 | 0x8A | 0x8B | 0x8C | 0x8D | 0x8E | 0x8F => .cls0F_jcc
  | 0x90 | 0x91 | 0x92 | 0x93 | 0x94 | 0x95 | 0x96 | 0x97
  | 0x98 | 0x99 | 0x9A | 0x9B | 0x9C | 0x9D | 0x9E | 0x9F => .cls0F_setcc
  | 0xB6 => .cls0F_movzx8
  | 0xB7 => .cls0F_movzx16
  | 0xBE => .cls0F_movsx8
  | 0xBF => .cls0F_movsx16
  | 0xAF => .cls0F_imul
  | _ => .cls0F_unknown

/-- The case-label groups of the main opcode `switch` of
`x86_decode_one` (lines 192-964); bodies that the C source shares
between several case labels form one class. -/
inductive x86_op_class where
  | cls_nop | cls_push_reg | cls_pop_reg | cls_pushad | cls_popad
  | cls_push_imm8 | cls_push_imm32 | cls_jcc_short
  | cls_grp1_80 | cls_grp1_81 | cls_grp1_83 | cls_alu_rm
  | cls_alu_acc_imm8 | cls_alu_acc_imm32 | cls_inc_reg | cls_dec_reg
  | cls_test_rm8 | cls_test_rm32 | cls_xchg_rm
  | cls_mov_rm_r8 | cls_mov_rm_r32 | cls_mov_r_rm8 | cls_mov_r_rm32
  | cls_lea
  | cls_mov_al_moffs | cls_mov_eax_moffs | cls_mov_moffs_al
  | cls_mov_moffs_eax
  | cls_test_acc_imm8 | cls_test_acc_imm32
  | cls_mov_reg_imm8 | cls_mov_reg_imm32
  | cls_shift_imm8_rm8 | cls_shift_imm8_rm32 | cls_ret | cls_ret_imm16
  | cls_mov_rm_imm8 | cls_mov_rm_imm32 | cls_leave | cls_int_imm8
  | cls_shift_rm8 | cls_shift_rm32
  | cls_in_al_imm | cls_in_eax_imm | cls_out_imm_al | cls_out_imm_eax
  | cls_call_rel32 | cls_jmp_rel32 | cls_jmp_rel8
  | cls_in_al_dx | cls_in_eax_dx | cls_out_dx_al | cls_out_dx_eax
  | cls_grp3_rm8 | cls_grp3_rm32
  | cls_hlt | cls_cli | cls_sti | cls_cld | cls_std | cls_cdq | cls_cbw
  | cls_grp4 | cls_grp5
  | cls_movsb | cls_movsd | cls_stosb | cls_stosd
  | cls_two_byte | cls_loop_op | cls_unknown
deriving DecidableEq

/-- Which case group an opcode byte falls in (the case labels of the
main switch). -/
def x86_op_class_of (opcode : Nat) : x86_op_class :=
  match opcode with
  | 0x90 => .cls_nop
  | 0x50 | 0x51 | 0x52 | 0x53 | 0x54 | 0x55 | 0x56 | 0x57 => .cls_push_reg
  | 0x58 | 0x59 | 0x5A | 0x5B | 0x5C | 0x5D | 0x5E | 0x5F => .cls_pop_reg
  | 0x60 => .cls_pushad
  | 0x61 => .cls_popad
  | 0x6A => .cls_push_imm8
  | 0x68 => .cls_push_imm32
  | 0x70 | 0x71 | 0x72 | 0x73 | 0x74 | 0x75 | 0x76 | 0x77
  | 0x78 | 0x79 | 0x7A | 0x7B | 0x7C | 0x7D | 0x7E | 0x7F => .cls_jcc_short
  | 0x80 => .cls_grp1_80
  | 0x81 => .cls_grp1_81
  | 0x83 => .cls_grp1_83
  | 0x00 | 0x01 | 0x02 | 0x03 | 0x08 | 0x09 | 0x0A | 0x0B
  | 0x10 | 0x11 | 0x12 | 0x13 | 0x18 | 0x19 | 0x1A | 0x1B
  | 0x20 | 0x21 | 0x22 | 0x23 | 0x28 | 0x29 | 0x2A | 0x2B
  | 0x30 | 0x31 | 0x32 | 0x33 | 0x38 | 0x39 | 0x3A | 0x3B => .cls_alu_rm
  | 0x04 | 0x0C | 0x14 | 0x1C | 0x24 | 0x2C | 0x34 | 0x3C =>
    .cls_alu_acc_imm8
  | 0x05 | 0x0D | 0x15 | 0x1D | 0x25 | 0x2D | 0x35 | 0x3D =>
    .cls_alu_acc_imm32
  | 0x40 | 0x41 | 0x42 | 0x43 | 0x44 | 0x45 | 0x46 | 0x47 => .cls_inc_reg
  | 0x48 | 0x49 | 0x4A | 0x4B | 0x4C | 0x4D | 0x4E | 0x4F => .cls_dec_reg
  | 0x84 => .cls_test_rm8
  | 0x85 => .cls_test_rm32
  | 0x86 | 0x87 => .cls_xchg_rm
  | 0x88 => .cls_mov_rm_r8
  | 0x89 => .cls_mov_rm_r32
  | 0x8A => .cls_mov_r_rm8
  | 0x8B => .cls_mov_r_rm32
  | 0x8D => .cls_lea
  | 0xA0 => .cls_mov_al_moffs
  | 0xA1 => .cls_mov_eax_moffs
  | 0xA2 => .cls_mov_moffs_al
  | 0xA3 => .cls_mov_moffs_eax
  | 0xA8 => .cls_test_acc_imm8
  | 0xA9 => .cls_test_acc_imm32
  | 0xB0 | 0xB1 | 0xB2 | 0xB3 | 0xB4 | 0xB5 | 0xB6 | 0xB7 =>
    .cls_mov_reg_imm8
  | 0xB8 | 0xB9 | 0xBA | 0xBB | 0xBC | 0xBD | 0xBE | 0xBF =>
    .cls_mov_reg_imm32
  | 0xC0 => .cls_shift_imm8_rm8
  | 0xC1 => .cls_shift_imm8_rm32
  | 0xC3 => .cls_ret
  | 0xC2 => .cls_ret_imm16
  | 0xC6 => .cls_mov_rm_imm8
  | 0xC7 => .cls_mov_rm_imm32
  | 0xC9 => .cls_leave
  | 0xCD => .cls_int_imm8
  | 0xD0 | 0xD2 => .cls_shift_rm8
  | 0xD1 | 0xD3 => .cls_shift_rm32
  | 0xE4 => .cls_in_al_imm
  | 0xE5 => .cls_in_eax_imm
  | 0xE6 => .cls_out_imm_al
  | 0xE7 => .cls_out_imm_eax
  | 0xE8 => .cls_call_rel32
  | 0xE9 => .cls_jmp_rel32
  | 0xEB => .cls_jmp_rel8
  | 0xEC => .cls_in_al_dx
  | 0xED => .cls_in_eax_dx
  | 0xEE => .cls_out_dx_al
  | 0xEF => .cls_out_dx_eax
  | 0xF6 => .cls_grp3_rm8
  | 0xF7 => .cls_grp3_rm32
  | 0xF4 => .cls_hlt
  | 0xFA => .cls_cli
  | 0xFB => .cls_sti
  | 0xFC => .cls_cld
  | 0xFD => .cls_std
  | 0x99 => .cls_cdq
  | 0x98 => .cls_cbw
  | 0xFE => .cls_grp4
  | 0xFF => .cls_grp5
  | 0xA4 => .cls_movsb
  | 0xA5 => .cls_movsd
  | 0xAA => .cls_stosb
  | 0xAB => .cls_stosd
  | 0x0F => .cls_two_byte
  | 0xE0 | 0xE1 | 0xE2 => .cls_loop_op
  | _ => .cls_unknown

/-- The two-byte (`0F`) opcode dispatch of `x86_decode_one`
(lines 862-949). -/
def decode_0F (dec : x86_decoder_t) (out : x86_decoded_t) (op_size : Nat) :
    x86_decoder_t × x86_decoded_t :=
  if ¬ has_bytes dec 1 then (dec, { out with instruction := .UNKNOWN })
  else
    let op2 := peek dec
    let d := dec_adv dec 1
    match x86_op_class_0F_of op2 with
    | .cls0F_jcc =>
      let (d1, rel) := read_i32 d
      (d1, { out with instruction := .JCC, cc := op2 - 0x80,
                      operand_count := 1,
                      op0 := { zero_operand with type := .REL,
                                                 imm := rel_target d1 rel } })
    | .cls0F_setcc =>
      let m := decode_modrm d 1
      (m.1, { out with instruction := .SETCC, cc := op2 - 0x90,
                       operand_count := 1, op0 := m.2.1 })
    | .cls0F_movzx8 =>
      let m := decode_modrm d 1
      (m.1, { out with instruction := .MOVZX, operand_count := 2,
                       op1 := m.2.1, op0 := reg_operand m.2.2 op_size })
    | .cls0F_movzx16 =>
      let m := decode_modrm d 2
      (m.1, { out with instruction := .MOVZX, operand_count := 2,
                       op1 := m.2.1, op0 := reg_operand m.2.2 op_size })
    | .cls0F_movsx8 =>
      let m := decode_modrm d 1
      (m.1, { out with instruction := .MOVSX, operand_count := 2,
                       op1 := m.2.1, op0 := reg_operand m.2.2 op_size })
    | .cls0F_movsx16 =>
      let m := decode_modrm d 2
      (m.1, { out with instruction := .MOVSX, operand_count := 2,
                       op1 := m.2.1, op0 := reg_operand m.2.2 op_size })
    | .cls0F_imul =>
      let m := decode_modrm d op_size
      (m.1, { out with instruction := .IMUL, operand_count := 2,
                       op1 := m.2.1, op0 := reg_operand m.2.2 op_size })
    | .cls0F_unknown => (d, { out with instruction := .UNKNOWN })

/-- The opcode dispatch of `x86_decode_one` (the big `switch` on lines
192-964); `dec` points just past the opcode byte. -/
def decode_opcode (dec : x86_decoder_t) (out : x86_decoded_t)
    (opcode op_size : Nat) : x86_decoder_t × x86_decoded_t :=
  match x86_op_class_of opcode with
  | .cls_nop => (dec, { out with instruction := .NOP })
  | .cls_push_reg =>
    (dec, { out with instruction := .PUSH, operand_count := 1,
                     op0 := reg_operand (opcode - 0x50) 4 })
  | .cls_pop_reg =>
    (dec, { out with instruction := .POP, operand_count := 1,
                     op0 := reg_operand (opcode - 0x58) 4 })
  | .cls_pushad => (dec, { out with instruction := .PUSHAD })
  | .cls_popad => (dec, { out with instruction := .POPAD })
  | .cls_push_imm8 =>
    let (d, v) := read_i8 dec
    (d, { out with instruction := .PUSH, operand_count := 1,
                   op0 := imm_operand v 4 })
  | .cls_push_imm32 =>
    let (d, v) := read_i32 dec
    (d, { out with instruction := .PUSH, operand_count := 1,
                   op0 := imm_operand v 4 })
  | .cls_jcc_short =>
    let (d, rel) := read_i8 dec
    (d, { out with instruction := .JCC, cc := opcode - 0x70,
                   operand_count := 1,
                   op0 := { zero_operand with type := .REL,
                                              imm := rel_target d rel } })
  | .cls_grp1_80 =>
    let m := decode_modrm dec 1
    let (d, v) := eat m.1
    (d, { out with instruction := group1_ops m.2.2, operand_count := 2,
                   op0 := m.2.1, op1 := imm_operand (v : Int) 1 })
  | .cls_grp1_81 =>
    let m := decode_modrm dec op_size
    if op_size = 2 then
      let (d, v) := read_u16 m.1
      (d, { out with instruction := group1_ops m.2.2, operand_count := 2,
                     op0 := m.2.1, op1 := imm_operand (sext16 v) op_size })
    else
      let (d, v) := read_i32 m.1
      (d, { out with instruction := group1_ops m.2.2, operand_count := 2,
                     op0 := m.2.1, op1 := imm_operand v op_size })
  | .cls_grp1_83 =>
    let m := decode_modrm dec op_size
    let (d, v) := read_i8 m.1
    (d, { out with instruction := group1_ops m.2.2, operand_count := 2,
                   op0 := m.2.1, op1 := imm_operand v op_size })
  | .cls_alu_rm =>
    let sz := if opcode &&& 1 = 0 then 1 else op_size
    if (opcode >>> 1) &&& 1 = 0 then
      let m := decode_modrm dec sz
      (m.1, { out with instruction := group1_ops ((opcode >>> 3) &&& 7),
                       operand_count := 2, op0 := m.2.1,
                       op1 := reg_operand m.2.2 sz })
    else
      let m := decode_modrm dec sz
      (m.1, { out with instruction := group1_ops ((opcode >>> 3) &&& 7),
                       operand_count := 2, op1 := m.2.1,
                       op0 := reg_operand m.2.2 sz })
  | .cls_alu_acc_imm8 =>
    let (d, v) := eat dec
    (d, { out with instruction := group1_ops ((opcode >>> 3) &&& 7),
                   operand_count := 2, op0 := reg_operand 0 1,
                   op1 := imm_operand (v : Int) 1 })
  | .cls_alu_acc_imm32 =>
    if op_size = 2 then
      let (d, v) := read_u16 dec
      (d, { out with instruction := group1_ops ((opcode >>> 3) &&& 7),
                     operand_count := 2, op0 := reg_operand 0 op_size,
                     op1 := imm_operand (sext16 v) op_size })
    else
      let (d, v) := read_i32 dec
      (d, { out with instruction := group1_ops ((opcode >>> 3) &&& 7),
                     operand_count := 2, op0 := reg_operand 0 op_size,
                     op1 := imm_operand v op_size })
  | .cls_inc_reg =>
    (dec, { out with instruction := .INC, operand_count := 1,
                     op0 := reg_operand (opcode - 0x40) op_size })
  | .cls_dec_reg =>
    (dec, { out with instruction := .DEC, operand_count := 1,
                     op0 := reg_operand (opcode - 0x48) op_size })
  | .cls_test_rm8 =>
    let m := decode_modrm dec 1
    (m.1, { out with instruction := .TEST, operand_count := 2,
                     op0 := m.2.1, op1 := reg_operand m.2.2 1 })
  | .cls_test_rm32 =>
    let m := decode_modrm dec op_size
    (m.1, { out with instruction := .TEST, operand_count := 2,
                     op0 := m.2.1, op1 := reg_operand m.2.2 op_size })
  | .cls_xchg_rm =>
    let sz := if opcode &&& 1 = 1 then op_size else 1
    let m := decode_modrm dec sz
    (m.1, { out with instruction := .XCHG, operand_count := 2,
                     op0 := m.2.1, op1 := reg_operand m.2.2 sz })
  | .cls_mov_rm_r8 =>
    let m := decode_modrm dec 1
    (m.1, { out with instruction := .MOV, operand_count := 2,
                     op0 := m.2.1, op1 := reg_operand m.2.2 1 })
  | .cls_mov_rm_r32 =>
    let m := decode_modrm dec op_size
    (m.1, { out with instruction := .MOV, operand_count := 2,
                     op0 := m.2.1, op1 := reg_operand m.2.2 op_size })
  | .cls_mov_r_rm8 =>
    let m := decode_modrm dec 1
    (m.1, { out with instruction := .MOV, operand_count := 2,
                     op1 := m.2.1, op0 := reg_operand m.2.2 1 })
  | .cls_mov_r_rm32 =>
    let m := decode_modrm dec op_size
    (m.1, { out with instruction := .MOV, operand_count := 2,
                     op1 := m.2.1, op0 := reg_operand m.2.2 op_size })
  | .cls_lea =>
    let m := decode_modrm dec op_size
    (m.1, { out with instruction := .LEA, operand_count := 2,
                     op1 := m.2.1, op0 := reg_operand m.2.2 op_size })
  | .cls_mov_al_moffs =>
    let (d, v) := read_i32 dec
    (d, { out with instruction := .MOV, operand_count := 2,
                   op0 := reg_operand 0 1,
                   op1 := { zero_operand with type := .MEM, size := 1, base := -1,
                                              index := -1, disp := v } })
  | .cls_mov_eax_moffs =>
    let (d, v) := read_i32 dec
    (d, { out with instruction := .MOV, operand_count := 2,
                   op0 := reg_operand 0 op_size,
                   op1 := { zero_operand with type := .MEM, size := op_size,
                                              base := -1, index := -1, disp := v } })
  | .cls_mov_moffs_al =>
    let (d, v) := read_i32 dec
    (d, { out with instruction := .MOV, operand_count := 2,
                   op0 := { zero_operand with type := .MEM, size := 1, base := -1,
                                              index := -1, disp := v },
                   op1 := reg_operand 0 1 })
  | .cls_mov_moffs_eax =>
    let (d, v) := read_i32 dec
    (d, { out with instruction := .MOV, operand_count := 2,
                   op0 := { zero_operand with type := .MEM, size := op_size,
                                              base := -1, index := -1, disp := v },
                   op1 := reg_operand 0 op_size })
  | .cls_test_acc_imm8 =>
    let (d, v) := eat dec
    (d, { out with instruction := .TEST, operand_count := 2,
                   op0 := reg_operand 0 1, op1 := imm_operand (v : Int) 1 })
  | .cls_test_acc_imm32 =>
    let (d, v) := read_i32 dec
    (d, { out with instruction := .TEST, operand_count := 2,
                   op0 := reg_operand 0 op_size, op1 := imm_operand v op_size })
  | .cls_mov_reg_imm8 =>
    let (d, v) := eat dec
    (d, { out with instruction := .MOV, operand_count := 2,
                   op0 := reg_operand (opcode - 0xB0) 1,
                   op1 := imm_operand (v : Int) 1 })
  | .cls_mov_reg_imm32 =>
    if op_size = 2 then
      let (d, v) := read_u16 dec
      (d, { out with instruction := .MOV, operand_count := 2,
                     op0 := reg_operand (opcode - 0xB8) op_size,
                     op1 := imm_operand (v : Int) op_size })
    else
      let (d, v) := read_u32 dec
      (d, { out with instruction := .MOV, operand_count := 2,
                     op0 := reg_operand (opcode - 0xB8) op_size,
                     op1 := imm_operand (v : Int) op_size })
  | .cls_shift_imm8_rm8 =>
    let m := decode_modrm dec 1
    let (d, v) := eat m.1
    (d, { out with instruction := shift_op_fix (shift_ops m.2.2),
                   operand_count := 2, op0 := m.2.1,
                   op1 := imm_operand (v : Int) 1 })
  | .cls_shift_imm8_rm32 =>
    let m := decode_modrm dec op_size
    let (d, v) := eat m.1
    (d, { out with instruction := shift_op_fix (shift_ops m.2.2),
                   operand_count := 2, op0 := m.2.1,
                   op1 := imm_operand (v : Int) 1 })
  | .cls_ret => (dec, { out with instruction := .RET })
  | .cls_ret_imm16 =>
    let (d, v) := read_u16 dec
    (d, { out with instruction := .RET, operand_count := 1,
                   op0 := imm_operand (v : Int) 2 })
  | .cls_mov_rm_imm8 =>
    let m := decode_modrm dec 1
    let (d, v) := eat m.1
    (d, { out with instruction := .MOV, operand_count := 2,
                   op0 := m.2.1, op1 := imm_operand (v : Int) 1 })
  | .cls_mov_rm_imm32 =>
    let m := decode_modrm dec op_size
    if op_size = 2 then
      let (d, v) := read_u16 m.1
      (d, { out with instruction := .MOV, operand_count := 2,
                     op0 := m.2.1, op1 := imm_operand (sext16 v) op_size })
    else
      let (d, v) := read_i32 m.1
      (d, { out with instruction := .MOV, operand_count := 2,
                     op0 := m.2.1, op1 := imm_operand v op_size })
  | .cls_leave => (dec, { out with instruction := .LEAVE })
  | .cls_int_imm8 =>
    let (d, v) := eat dec
    (d, { out with instruction := .INT, operand_count := 1,
                   op0 := imm_operand (v : Int) 1 })
  | .cls_shift_rm8 =>
    let m := decode_modrm dec 1
    let op1 := if opcode = 0xD0 then imm_operand 1 1 else reg_operand 1 1
    (m.1, { out with instruction := shift_op_fix (shift_ops m.2.2),
                     operand_count := 2, op0 := m.2.1, op1 := op1 })
  | .cls_shift_rm32 =>
    let m := decode_modrm dec op_size
    let op1 := if opcode = 0xD1 then imm_operand 1 1 else reg_operand 1 1
    (m.1, { out with instruction := shift_op_fix (shift_ops m.2.2),
                     operand_count := 2, op0 := m.2.1, op1 := op1 })
  | .cls_in_al_imm =>
    let (d, v) := eat dec
    (d, { out with instruction := .IN, operand_count := 2,
                   op0 := reg_operand 0 1, op1 := imm_operand (v : Int) 1 })
  | .cls_in_eax_imm =>
    let (d, v) := eat dec
    (d, { out with instruction := .IN, operand_count := 2,
                   op0 := reg_operand 0 op_size, op1 := imm_operand (v : Int) 1 })
  | .cls_out_imm_al =>
    let (d, v) := eat dec
    (d, { out with instruction := .OUT, operand_count := 2,
                   op0 := imm_operand (v : Int) 1, op1 := reg_operand 0 1 })
  | .cls_out_imm_eax =>
    let (d, v) := eat dec
    (d, { out with instruction := .OUT, operand_count := 2,
                   op0 := imm_operand (v : Int) 1, op1 := reg_operand 0 op_size })
  | .cls_call_rel32 =>
    let (d, rel) := read_i32 dec
    (d, { out with instruction := .CALL, operand_count := 1,
                   op0 := { zero_operand with type := .REL,
                                              imm := rel_target d rel } })
  | .cls_jmp_rel32 =>
    let (d, rel) := read_i32 dec
    (d, { out with instruction := .JMP, operand_count := 1,
                   op0 := { zero_operand with type := .REL,
                                              imm := rel_target d rel } })
  | .cls_jmp_rel8 =>
    let (d, rel) := read_i8 dec
    (d, { out with instruction := .JMP, operand_count := 1,
                   op0 := { zero_operand with type := .REL,
                                              imm := rel_target d rel } })
  | .cls_in_al_dx =>
    (dec, { out with instruction := .IN, operand_count := 2,
                     op0 := reg_operand 0 1, op1 := reg_operand 2 2 })
  | .cls_in_eax_dx =>
    (dec, { out with instruction := .IN, operand_count := 2,
                     op0 := reg_operand 0 op_size, op1 := reg_operand 2 2 })
  | .cls_out_dx_al =>
    (dec, { out with instruction := .OUT, operand_count := 2,
                     op0 := reg_operand 2 2, op1 := reg_operand 0 1 })
  | .cls_out_dx_eax =>
    (dec, { out with instruction := .OUT, operand_count := 2,
                     op0 := reg_operand 2 2, op1 := reg_operand 0 op_size })
  | .cls_grp3_rm8 =>
    let m := decode_modrm dec 1
    if m.2.2 ≤ 1 then
      let (d, v) := eat m.1
      (d, { out with instruction := group3_ops m.2.2, operand_count := 2,
                     op0 := m.2.1, op1 := imm_operand (v : Int) 1 })
    else
      (m.1, { out with instruction := group3_ops m.2.2, operand_count := 1,
                       op0 := m.2.1 })
  | .cls_grp3_rm32 =>
    let m := decode_modrm dec op_size
    if m.2.2 ≤ 1 then
      let (d, v) := read_i32 m.1
      (d, { out with instruction := group3_ops m.2.2, operand_count := 2,
                     op0 := m.2.1, op1 := imm_operand v op_size })
    else
      (m.1, { out with instruction := group3_ops m.2.2, operand_count := 1,
                       op0 := m.2.1 })
  | .cls_hlt => (dec, { out with instruction := .HLT })
  | .cls_cli => (dec, { out with instruction := .CLI })
  | .cls_sti => (dec, { out with instruction := .STI })
  | .cls_cld => (dec, { out with instruction := .CLD })
  | .cls_std => (dec, { out with instruction := .STD })
  | .cls_cdq => (dec, { out with instruction := .CDQ })
  | .cls_cbw => (dec, { out with instruction := .CBW })
  | .cls_grp4 =>
    let m := decode_modrm dec 1
    (m.1, { out with
            instruction := if m.2.2 = 0 then .INC else .DEC,
            operand_count := 1, op0 := m.2.1 })
  | .cls_grp5 =>
    let m := decode_modrm dec op_size
    (m.1, { out with instruction := group5_ops m.2.2, operand_count := 1,
                     op0 := m.2.1 })
  | .cls_movsb =>
    let i0 : x86_instruction_t :=
      if out.prefixes &&& 0x01 ≠ 0 then .REP_MOVSB else .UNKNOWN
    (dec, { out with instruction := if i0 = .UNKNOWN then .NOP else i0 })
  | .cls_movsd =>
    (dec, { out with instruction :=
                     if out.prefixes &&& 0x01 ≠ 0 then .REP_MOVSD else .NOP })
  | .cls_stosb =>
    (dec, { out with instruction :=
                     if out.prefixes &&& 0x01 ≠ 0 then .REP_STOSB else .NOP })
  | .cls_stosd =>
    (dec, { out with instruction :=
                     if out.prefixes &&& 0x01 ≠ 0 then .REP_STOSD else .NOP })
  | .cls_two_byte => decode_0F dec out op_size
  | .cls_loop_op =>
    let (d, rel) := read_i8 dec
    (d, { out with instruction := .LOOP, operand_count := 1,
                   op0 := { zero_operand with type := .REL,
                                              imm := rel_target d rel } })
  | .cls_unknown => (dec, { out with instruction := .UNKNOWN })

/-- `x86_decode_one` in x86_decoder.c (lines 158-968).  `none` models
the two paths that return 0 without writing an instruction; on the
main path the returned `int` is the record's `length` field, the
`uint8_t` cast of the bytes consumed. -/
def x86_decode_one (dec : x86_decoder_t) :
    x86_decoder_t × Option x86_decoded_t :=
  if dec.code_size ≤ dec.offset then (dec, none)
  else
    let start := dec.offset
    let p := prefix_scan dec (dec.code_size - dec.offset) 0
    if ¬ has_bytes p.1 1 then (p.1, none)
    else
      let opcode := peek p.1
      let d2 := dec_adv p.1 1
      let op_size : Nat := if p.2 &&& 0x08 ≠ 0 then 2 else 4
      let out0 : x86_decoded_t :=
        { address := (dec.base_address + dec.offset) % 2 ^ 64, length := 0,
          instruction := .UNKNOWN, operand_count := 0,
          op0 := zero_operand, op1 := zero_operand, op2 := zero_operand,
          op3 := zero_operand, prefixes := p.2, cc := 0 }
      let r := decode_opcode d2 out0 opcode op_size
      (r.1, some { r.2 with length := (r.1.offset - start) % 256 })

/-- The `int` return value of `x86_decode_one` (0 for the early-out
paths, else the decoded length field). -/
def x86_decode_one_ret (r : x86_decoder_t × Option x86_decoded_t) : Nat :=
  match r.2 with
  | none => 0
  | some out => out.length

/-- The loop of `x86_decode_range` (lines 978-989): stops at the end
of the buffer or on a non-positive return. -/
def x86_decode_range_go :
    x86_decoder_t → Nat → List x86_decoded_t →
    x86_decoder_t × List x86_decoded_t
  | dec, 0, acc => (dec, acc)
  | dec, fuel + 1, acc =>
    if dec.offset < dec.code_size then
      match x86_decode_one dec with
      | (dec', none) => (dec', acc)
      | (dec', some out) =>
        if out.length = 0 then (dec', acc)
        else x86_decode_range_go dec' fuel (acc ++ [out])
    else (dec, acc)

/-- `x86_decode_range` in x86_decoder.c (lines 972-993).  Fuel
`code_size - offset + 1` suffices: every continuing iteration strictly
advances the cursor (see `C7_decoder_progress`). -/
def x86_decode_range (dec : x86_decoder_t) :
    x86_decoder_t × List x86_decoded_t :=
  x86_decode_range_go dec (dec.code_size - dec.offset + 1) []

/-! Cursor bookkeeping lemmas for the decoder. -/

@[simp] theorem dec_adv_offset (dec : x86_decoder_t) (n : Nat) :
    (dec_adv dec n).offset = dec.offset + n := rfl

@[simp] theorem dec_adv_code (dec : x86_decoder_t) (n : Nat) :
    (dec_adv dec n).code = dec.code := rfl

@[simp] theorem dec_adv_code_size (dec : x86_decoder_t) (n : Nat) :
    (dec_adv dec n).code_size = dec.code_size := rfl

@[simp] theorem dec_adv_base (dec : x86_decoder_t) (n : Nat) :
    (dec_adv dec n).base_address = dec.base_address := rfl

/-- Bytes `decode_modrm` consumes, as a function of the ModR/M (and
SIB) bytes it reads: one for ModR/M, one more for SIB, plus the
displacement width. -/
def modrm_len (dec : x86_decoder_t) : Nat :=
  let modrm := peek dec
  let md := (modrm >>> 6) &&& 3
  let rm := modrm &&& 7
  if md = 3 then 1
  else
    (if rm = 4 then
      let sib := peek (dec_adv dec 1)
      if sib &&& 7 = 5 ∧ md = 0 then 6 else 2
    else if rm = 5 ∧ md = 0 then 5
    else 1) +
    (if md = 1 then 1 else if md = 2 then 4 else 0)

/-- The 258-byte instruction `66^256 EB 00`: length truncates to 2, so
`address + length + rel = 2` while the stored target is 258. -/
def c5code : Nat → Nat := fun o =>
  if o < 256 then 0x66 else if o = 256 then 0xEB else 0

/-- Input for the closed instance of `C5_relative_targets`. -/
def c5w_code : Nat → Nat := fun o => if o = 0 then 0xEB else 0

/-- Decoder before decoding `EB 00` at base 4096. -/
def c5w_dec : x86_decoder_t := ⟨32, c5w_code, 2, 4096, 0⟩

/-- Decoder after decoding `EB 00`. -/
def c5w_dec2 : x86_decoder_t := ⟨32, c5w_code, 2, 4096, 2⟩

/-- The decoded `JMP rel8` record for `EB 00` at base 4096. -/
def c5w_out : x86_decoded_t :=
  { address := 4096, length := 2, instruction := .JMP, operand_count := 1,
    op0 := { zero_operand with type := .REL, imm := 4098 },
    op1 := zero_operand, op2 := zero_operand, op3 := zero_operand,
    prefixes := 0, cc := 0 }

/-- The amended tiling invariant: each decoded record sits at the
running address (uint64 wrap) and advances it by its actual byte count
`c ≥ 1`, of which the stored `length` is the `uint8_t` truncation. -/
def chained : Nat → List x86_decoded_t → Prop
  | _, [] => True
  | a, out :: rest =>
      out.address = a % 2 ^ 64 ∧
      ∃ c : Nat, 1 ≤ c ∧ out.length = c % 256 ∧ chained (a + c) rest

/-- `66^256 EB 00 90`: a 258-byte `JMP` whose length field truncates
to 2, followed by a `NOP`. -/
def c9code : Nat → Nat := fun o =>
  if o < 256 then 0x66 else if o = 256 then 0xEB
  else if o = 257 then 0 else if o = 258 then 0x90 else 0

/-! ## UIR lifter (src/ir/uir.c)

`uir_x86_input_t` has exactly the fields of `x86_decoded_t`, so the
latter is reused as the input type.  Heap arrays become lists; the
`capacity`/`count` bookkeeping of the C block builder is subsumed by
list length. -/

/-- `uir_opcode_t` in uir.h. -/
inductive uir_opcode_t where
  | UIR_NOP
  | UIR_MOV | UIR_LOAD | UIR_STORE | UIR_PUSH | UIR_POP | UIR_LEA
  | UIR_MOVZX | UIR_MOVSX
  | UIR_ADD | UIR_SUB | UIR_MUL | UIR_IMUL | UIR_DIV | UIR_IDIV
  | UIR_NEG | UIR_INC | UIR_DEC
  | UIR_AND | UIR_OR | UIR_XOR | UIR_NOT | UIR_SHL | UIR_SHR | UIR_SAR
  | UIR_CMP | UIR_TEST
  | UIR_JMP | UIR_JCC | UIR_CALL | UIR_RET
  | UIR_PORT_IN | UIR_PORT_OUT
  | UIR_CLI | UIR_STI | UIR_HLT
deriving DecidableEq

/-- `uir_operand_type_t` in uir.h. -/
inductive uir_operand_type_t where
  | NONE | REG | IMM | MEM | ADDR
deriving DecidableEq

/-- `uir_operand_t` in uir.h. -/
structure uir_operand_t where
  type : uir_operand_type_t
  size : Nat
  reg : Int
  index : Int
  scale : Nat
  disp : Int
  imm : Int
deriving DecidableEq

/-- The all-zero UIR operand (`memset(&op, 0, ...)`). -/
def zero_uir_operand : uir_operand_t :=
  { type := .NONE, size := 0, reg := 0, index := 0, scale := 0, disp := 0,
    imm := 0 }

/-- `uir_instruction_t` in uir.h. -/
structure uir_instruction_t where
  opcode : uir_opcode_t
  dest : uir_operand_t
  src1 : uir_operand_t
  src2 : uir_operand_t
  size : Nat
  original_address : Nat
  cc : Nat
deriving DecidableEq

/-- `uir_block_t` in uir.h (`instructions`/`count`/`capacity` as one
list). -/
structure uir_block_t where
  address : Nat
  instructions : List uir_instruction_t
  fall_through : Int
  branch_target : Int
  is_entry : Bool
deriving DecidableEq

/-- `uir_function_t` in uir.h. -/
structure uir_function_t where
  blocks : List uir_block_t
  entry_address : Nat
  ports_read : List Nat
  ports_written : List Nat
  has_port_io : Bool
  uses_dx_port : Bool
deriving DecidableEq

/-- `is_terminator` in uir.c (lines 99-102). -/
def is_terminator (instruction : x86_instruction_t) : Bool :=
  decide (instruction = .JMP) || decide (instruction = .RET)

/-- `target_set_add` in uir.c: append unless already present. -/
def target_set_add (ts : List Nat) (addr : Nat) : List Nat :=
  if addr ∈ ts then ts else ts ++ [addr]

/-- `add_port` in uir.c: append unless already present. -/
def add_port (ports : List Nat) (port : Nat) : List Nat :=
  if port ∈ ports then ports else ports ++ [port]

/-- `convert_operand` in uir.c (lines 106-140). -/
def convert_operand (x86 : x86_decoded_t) (idx : Nat) : uir_operand_t :=
  if x86.operand_count ≤ idx then zero_uir_operand
  else
    match (x86.operand idx).type with
    | .NONE => zero_uir_operand
    | .REG => { zero_uir_operand with type := .REG,
                                      reg := (x86.operand idx).reg,
                                      size := (x86.operand idx).size }
    | .MEM => { zero_uir_operand with type := .MEM,
                                      reg := (x86.operand idx).base,
                                      index := (x86.operand idx).index,
                                      scale := (x86.operand idx).scale,
                                      disp := (x86.operand idx).disp,
                                      size := (x86.operand idx).size }
    | .IMM => { zero_uir_operand with type := .IMM,
                                      imm := (x86.operand idx).imm,
                                      size := (x86.operand idx).size }
    | .REL => { zero_uir_operand with type := .ADDR,
                                      imm := (x86.operand idx).imm }

/-- `lift_one` in uir.c (lines 144-405).  The two booleans model the
only two `func` fields the C function assigns: `.2.1` is true when it
sets `func->has_port_io = true` and `.2.2` when it sets
`func->uses_dx_port = true`; the caller ORs them into its state. -/
def lift_one (x86 : x86_decoded_t) : uir_instruction_t × Bool × Bool :=
  let uir0 : uir_instruction_t :=
    { opcode := .UIR_NOP, dest := zero_uir_operand,
      src1 := zero_uir_operand, src2 := zero_uir_operand, size := 0,
      original_address := x86.address, cc := 0 }
  match x86.instruction with
  | .IN =>
    ({ uir0 with opcode := .UIR_PORT_IN, dest := convert_operand x86 0,
                 src1 := convert_operand x86 1, size := x86.op0.size },
     true, decide (x86.op1.type = x86_operand_type_t.REG))
  | .OUT =>
    ({ uir0 with opcode := .UIR_PORT_OUT, dest := convert_operand x86 0,
                 src1 := convert_operand x86 1, size := x86.op1.size },
     true, decide (x86.op0.type = x86_operand_type_t.REG))
  | .MOV =>
    (if x86.op0.type = x86_operand_type_t.REG ∧
        x86.op1.type = x86_operand_type_t.MEM then
       { uir0 with opcode := .UIR_LOAD, dest := convert_operand x86 0,
                   src1 := convert_operand x86 1, size := x86.op0.size }
     else if x86.op0.type = x86_operand_type_t.MEM then
       { uir0 with opcode := .UIR_STORE, dest := convert_operand x86 0,
                   src1 := convert_operand x86 1, size := x86.op0.size }
     else
       { uir0 with opcode := .UIR_MOV, dest := convert_operand x86 0,
                   src1 := convert_operand x86 1, size := x86.op0.size },
     false, false)
  | .MOVZX =>
    ({ uir0 with opcode := .UIR_MOVZX, dest := convert_operand x86 0,
                 src1 := convert_operand x86 1, size := x86.op0.size },
     false, false)
  | .MOVSX =>
    ({ uir0 with opcode := .UIR_MOVSX, dest := convert_operand x86 0,
                 src1 := convert_operand x86 1, size := x86.op0.size },
     false, false)
  | .LEA =>
    ({ uir0 with opcode := .UIR_LEA, dest := convert_operand x86 0,
                 src1 := convert_operand x86 1, size := x86.op0.size },
     false, false)
  | .PUSH =>
    ({ uir0 with opcode := .UIR_PUSH, src1 := convert_operand x86 0,
                 size := 4 }, false, false)
  | .POP =>
    ({ uir0 with opcode := .UIR_POP, dest := convert_operand x86 0,
                 size := 4 }, false, false)
  | .XCHG =>
    ({ uir0 with opcode := .UIR_MOV, dest := convert_operand x86 0,
                 src1 := convert_operand x86 1, size := x86.op0.size },
     false, false)
  | .ADD =>
    ({ uir0 with opcode := .UIR_ADD, dest := convert_operand x86 0,
                 src1 := convert_operand x86 1, size := x86.op0.size },
     false, false)
  | .SUB =>
    ({ uir0 with opcode := .UIR_SUB, dest := convert_operand x86 0,
                 src1 := convert_operand x86 1, size := x86.op0.size },
     false, false)
  | .MUL =>
    ({ uir0 with opcode := .UIR_MUL, dest := convert_operand x86 0,
                 size := x86.op0.size }, false, false)
  | .IMUL =>
    ({ uir0 with opcode := .UIR_IMUL, dest := convert_operand x86 0,
                 src1 := convert_operand x86 1, size := x86.op0.size },
     false, false)
  | .DIV =>
    ({ uir0 with opcode := .UIR_DIV, dest := convert_operand x86 0,
                 size := x86.op0.size }, false, false)
  | .IDIV =>
    ({ uir0 with opcode := .UIR_IDIV, dest := convert_operand x86 0,
                 size := x86.op0.size }, false, false)
  | .NEG =>
    ({ uir0 with opcode := .UIR_NEG, dest := convert_operand x86 0,
                 size := x86.op0.size }, false, false)
  | .INC =>
    ({ uir0 with opcode := .UIR_INC, dest := convert_operand x86 0,
                 size := x86.op0.size }, false, false)
  | .DEC =>
    ({ uir0 with opcode := .UIR_DEC, dest := convert_operand x86 0,
                 size := x86.op0.size }, false, false)
  | .AND =>
    ({ uir0 with opcode := .UIR_AND, dest := convert_operand x86 0,
                 src1 := convert_operand x86 1, size := x86.op0.size },
     false, false)
  | .OR =>
    ({ uir0 with opcode := .UIR_OR, dest := convert_operand x86 0,
                 src1 := convert_operand x86 1, size := x86.op0.size },
     false, false)
  | .XOR =>
    ({ uir0 with opcode := .UIR_XOR, dest := convert_operand x86 0,
                 src1 := convert_operand x86 1, size := x86.op0.size },
     false, false)
  | .NOT =>
    ({ uir0 with opcode := .UIR_NOT, dest := convert_operand x86 0,
                 size := x86.op0.size }, false, false)
  | .SHL =>
    ({ uir0 with opcode := .UIR_SHL, dest := convert_operand x86 0,
                 src1 := convert_operand x86 1, size := x86.op0.size },
     false, false)
  | .SHR =>
    ({ uir0 with opcode := .UIR_SHR, dest := convert_operand x86 0,
                 src1 := convert_operand x86 1, size := x86.op0.size },
     false, false)
  | .SAR =>
    ({ uir0 with opcode := .UIR_SAR, dest := convert_operand x86 0,
                 src1 := convert_operand x86 1, size := x86.op0.size },
     false, false)
  | .CMP =>
    ({ uir0 with opcode := .UIR_CMP, dest := convert_operand x86 0,
                 src1 := convert_operand x86 1, size := x86.op0.size },
     false, false)
  | .TEST =>
    ({ uir0 with opcode := .UIR_TEST, dest := convert_operand x86 0,
                 src1 := convert_operand x86 1, size := x86.op0.size },
     false, false)
  | .JMP =>
    ({ uir0 with opcode := .UIR_JMP, dest := convert_operand x86 0 },
     false, false)
  | .JCC =>
    ({ uir0 with opcode := .UIR_JCC, cc := x86.cc,
                 dest := convert_operand x86 0 }, false, false)
  | .CALL =>
    ({ uir0 with opcode := .UIR_CALL, dest := convert_operand x86 0 },
     false, false)
  | .RET => ({ uir0 with opcode := .UIR_RET }, false, false)
  | .CLI => ({ uir0 with opcode := .UIR_CLI }, false, false)
  | .STI => ({ uir0 with opcode := .UIR_STI }, false, false)
  | .HLT => ({ uir0 with opcode := .UIR_HLT }, false, false)
  | .NOP => ({ uir0 with opcode := .UIR_NOP }, false, false)
  | _ => (uir0, false, false)

/-- Pass 1 of `uir_lift_function` (lines 422-445): collect branch
targets. -/
def collect_targets : List x86_decoded_t → List Nat → List Nat
  | [], ts => ts
  | x :: rest, ts =>
    let ts1 :=
      if x.instruction = .JMP ∨ x.instruction = .JCC ∨
         x.instruction = .LOOP then
        let tsA :=
          if 0 < x.operand_count ∧
             (x.op0.type = x86_operand_type_t.REL ∨
              x.op0.type = x86_operand_type_t.IMM) then
            target_set_add ts (u64ofInt x.op0.imm)
          else ts
        match rest with
        | [] => tsA
        | y :: _ => target_set_add tsA y.address
      else ts
    let ts2 :=
      if x.instruction = .RET ∨ x.instruction = .HLT then
        match rest with
        | [] => ts1
        | y :: _ => target_set_add ts1 y.address
      else ts1
    collect_targets rest ts2

/-- The mutable state of pass 2 of `uir_lift_function`: the block
array and the port summary fields of `func`. -/
structure lift_state_t where
  blocks : List uir_block_t
  ports_read : List Nat
  ports_written : List Nat
  has_port_io : Bool
  uses_dx_port : Bool
deriving DecidableEq

/-- `block_append` on the current (= last) block. -/
def append_last : List uir_block_t → uir_instruction_t → List uir_block_t
  | [], _ => []
  | [b], ins => [{ b with instructions := b.instructions ++ [ins] }]
  | b :: b2 :: rest, ins => b :: append_last (b2 :: rest) ins

/-- One iteration of pass 2 of `uir_lift_function` (lines 457-493):
open a new block at a branch target (or for the first instruction),
lift the instruction into the current block, and track ports. -/
def pass2_step (entry : Nat) (targets : List Nat) (st : lift_state_t)
    (x : x86_decoded_t) : lift_state_t :=
  let st1 :=
    if st.blocks = [] ∨ x.address ∈ targets then
      { st with blocks := st.blocks ++
          [{ address := x.address, instructions := [], fall_through := -1,
             branch_target := -1, is_entry := decide (x.address = entry) }] }
    else st
  let r := lift_one x
  let st2 := { st1 with blocks := append_last st1.blocks r.1,
                        has_port_io := st1.has_port_io || r.2.1,
                        uses_dx_port := st1.uses_dx_port || r.2.2 }
  let st3 :=
    if r.1.opcode = .UIR_PORT_IN ∧
       r.1.src1.type = uir_operand_type_t.IMM then
      { st2 with
          ports_read := add_port st2.ports_read (u16ofInt r.1.src1.imm) }
    else st2
  if r.1.opcode = .UIR_PORT_OUT ∧
     r.1.dest.type = uir_operand_type_t.IMM then
    { st3 with
        ports_written := add_port st3.ports_written (u16ofInt r.1.dest.imm) }
  else st3

/-- Pass 3 of `uir_lift_function` on one block (lines 496-527).  The
fall-through clause faithfully tests `is_terminator` of
`insts[0].instruction` — the first instruction of the whole input —
as the C source does, not of the block's last instruction. -/
def link_block (blocks : List uir_block_t)
    (first_instruction : x86_instruction_t) (n b : Nat)
    (blk : uir_block_t) : uir_block_t :=
  match blk.instructions.getLast? with
  | none => blk
  | some last =>
    let blk1 :=
      if ¬ (is_terminator first_instruction = true) then
        if last.opcode ≠ .UIR_JMP ∧ last.opcode ≠ .UIR_RET then
          if b + 1 < n then
            { blk with fall_through := ((b + 1 : Nat) : Int) }
          else blk
        else blk
      else blk
    if last.opcode = .UIR_JCC ∨ last.opcode = .UIR_JMP then
      let target_addr := u64ofInt last.dest.imm
      let blk2 :=
        match blocks.findIdx?
            (fun blk' => decide (blk'.address = target_addr)) with
        | some t => { blk1 with branch_target := (t : Int) }
        | none => blk1
      let blk3 :=
        if last.opcode = .UIR_JCC ∧ b + 1 < n then
          { blk2 with fall_through := ((b + 1 : Nat) : Int) }
        else blk2
      if last.opcode = .UIR_JMP then { blk3 with fall_through := -1 }
      else blk3
    else blk1

/-- `uir_lift_function` in uir.c (lines 409-531). -/
def uir_lift_function (insts : List x86_decoded_t) (entry_address : Nat) :
    Option uir_function_t :=
  match insts with
  | [] => none
  | x0 :: _ =>
    let targets := collect_targets insts (target_set_add [] entry_address)
    let st := List.foldl (pass2_step entry_address targets)
      ⟨[], [], [], false, false⟩ insts
    let n := st.blocks.length
    let linked := st.blocks.enum.map
      (fun p => link_block st.blocks x0.instruction n p.1 p.2)
    some { blocks := linked, entry_address := entry_address,
           ports_read := st.ports_read,
           ports_written := st.ports_written,
           has_port_io := st.has_port_io,
           uses_dx_port := st.uses_dx_port }

/-- `IN AL, 0x60` as a decoded record (the decoder's output shape). -/
def c6w_in : x86_decoded_t :=
  { address := 4096, length := 2, instruction := .IN, operand_count := 2,
    op0 := reg_operand 0 1, op1 := imm_operand 96 1,
    op2 := zero_operand, op3 := zero_operand, prefixes := 0, cc := 0 }

/-- The lifted `port_in` instruction for `IN AL, 0x60`. -/
def c6w_ins : uir_instruction_t :=
  { opcode := .UIR_PORT_IN,
    dest := { zero_uir_operand with type := .REG, reg := 0, size := 1 },
    src1 := { zero_uir_operand with type := .IMM, imm := 96, size := 1 },
    src2 := zero_uir_operand, size := 1, original_address := 4096, cc := 0 }

/-- The function the lifter returns on `[IN AL, 0x60]`. -/
def c6w_func : uir_function_t :=
  { blocks := [{ address := 4096, instructions := [c6w_ins],
                 fall_through := -1, branch_target := -1,
                 is_entry := true }],
    entry_address := 4096, ports_read := [96], ports_written := [],
    has_port_io := true, uses_dx_port := false }

/-- `JMP +2` at address 0 (relative target 2). -/
def c2jmp : x86_decoded_t :=
  { address := 0, length := 2, instruction := .JMP, operand_count := 1,
    op0 := { zero_operand with type := .REL, imm := 2 },
    op1 := zero_operand, op2 := zero_operand, op3 := zero_operand,
    prefixes := 0, cc := 0 }

/-- `NOP` at address 1. -/
def c2nop : x86_decoded_t :=
  { address := 1, length := 1, instruction := .NOP, operand_count := 0,
    op0 := zero_operand, op1 := zero_operand, op2 := zero_operand,
    op3 := zero_operand, prefixes := 0, cc := 0 }

/-- `RET` at address 2. -/
def c2ret : x86_decoded_t :=
  { address := 2, length := 1, instruction := .RET, operand_count := 0,
    op0 := zero_operand, op1 := zero_operand, op2 := zero_operand,
    op3 := zero_operand, prefixes := 0, cc := 0 }

/-! ## Theorems -/

/-! ## Claim C8 -/

/-- C8 counterexample: for `register_count = 0` the code returns the
single-port string `"0x60"`, not the range string `"0x60-0x5F"` that
the claim prescribes for every count other than 1. -/
theorem C8_counterexample :
    forth_port_range_desc 0x60 0 = "0x60" ∧
    forth_port_range_desc_spec 0x60 0 = "0x60-0x5F" ∧
    forth_port_range_desc 0x60 0 ≠ forth_port_range_desc_spec 0x60 0 := by
  decide

/-- C8 (amended): `forth_port_range_desc` returns `"0x<hex base>"` for
every register count `≤ 1` (both 0 and 1), and
`"0x<base>-0x<base+count-1>"` for every count `≥ 2`. -/
theorem C8_port_range_desc (base_port register_count : Nat) :
    forth_port_range_desc base_port register_count =
      forth_port_range_desc_amended base_port register_count := by
  rcases register_count with _ | _ | n <;>
    simp [forth_port_range_desc, forth_port_range_desc_amended]

/-! ## Claim C3 -/

/-- A list that appears contiguously inside a right extension. -/
theorem infix_here {α : Type} (l t : List α) : l <:+: l ++ t := ⟨[], t, by simp⟩

/-- Infixes are preserved under extension on the left. -/
theorem infix_append_left {α : Type} (s : List α) {l t : List α}
    (h : l <:+: t) : l <:+: s ++ t := by
  obtain ⟨u, v, huv⟩ := h
  exact ⟨s ++ u, v, by rw [← huv]; simp⟩

set_option maxRecDepth 40000 in
/-- C3 counterexample: with `category`, `source_type` and `confidence`
left NULL, the generated catalog header renders them as `"unknown"`,
`"unknown"` and `"low"` — the lines `CATEGORY: none`, `SOURCE: none`
and `CONFIDENCE: none` required by the claim do not appear. -/
theorem C3_counterexample :
    ("\\ CATEGORY: unknown\n".data <:+: (forth_generate c3_input).data) ∧
    ¬ ("\\ CATEGORY: none\n".data <:+: (forth_generate c3_input).data) ∧
    ¬ ("\\ SOURCE: none\n".data <:+: (forth_generate c3_input).data) ∧
    ¬ ("\\ CONFIDENCE: none\n".data <:+: (forth_generate c3_input).data) := by
  decide

/-- C3 (amended): the catalog header emitted by `forth_generate`
contains every key `CATALOG / CATEGORY / SOURCE / SOURCE-BINARY /
VENDOR-ID / DEVICE-ID / PORTS / MMIO / CONFIDENCE` with its provided
value; keys whose value was not provided (NULL in the options) render
with their per-key defaults: `"unknown"` for CATEGORY and SOURCE,
`"low"` for CONFIDENCE, and `"none"` for the remaining keys. -/
theorem C3_catalog_header_keys (input : forth_codegen_input_t) :
    ((catalog_kv "CATALOG" input.opts.vocab_name).data
        <:+: (forth_generate input).data) ∧
    ((catalog_kv "CATEGORY" (input.opts.category.getD "unknown")).data
        <:+: (forth_generate input).data) ∧
    ((catalog_kv "SOURCE" (input.opts.source_type.getD "unknown")).data
        <:+: (forth_generate input).data) ∧
    ((catalog_kv "SOURCE-BINARY" (input.opts.source_binary.getD "none")).data
        <:+: (forth_generate input).data) ∧
    ((catalog_kv "VENDOR-ID" (input.opts.vendor_id.getD "none")).data
        <:+: (forth_generate input).data) ∧
    ((catalog_kv "DEVICE-ID" (input.opts.device_id.getD "none")).data
        <:+: (forth_generate input).data) ∧
    ((catalog_kv "PORTS" (input.opts.ports_desc.getD "none")).data
        <:+: (forth_generate input).data) ∧
    ((catalog_kv "MMIO" (input.opts.mmio_desc.getD "none")).data
        <:+: (forth_generate input).data) ∧
    ((catalog_kv "CONFIDENCE" (input.opts.confidence.getD "low")).data
        <:+: (forth_generate input).data) := by
  refine ⟨?_, ?_, ?_, ?_, ?_, ?_, ?_, ?_, ?_⟩ <;>
  · simp only [forth_generate, emit_catalog_header, String.data_append,
      List.append_assoc]
    repeat first
      | exact infix_here _ _
      | apply infix_append_left

/-! ## Claim C10 -/

/-- C10: `pe_cleanup` is idempotent: one call leaves `sections`,
`imports` and `exports` NULL with all three counts zero, and a second
call leaves the context unchanged and performs no `free` at all. -/
theorem C10_pe_cleanup_idempotent (ctx : pe_context_t) :
    ((pe_cleanup ctx).1.sections = none ∧
     (pe_cleanup ctx).1.imports = none ∧
     (pe_cleanup ctx).1.exports = none ∧
     (pe_cleanup ctx).1.section_count = 0 ∧
     (pe_cleanup ctx).1.import_count = 0 ∧
     (pe_cleanup ctx).1.export_count = 0) ∧
    pe_cleanup (pe_cleanup ctx).1 = ((pe_cleanup ctx).1, 0) := by
  simp [pe_cleanup]

set_option maxRecDepth 8000 in
/-- C1 counterexample: `pe_load` succeeds on `c1_data` although the
recorded section has `raw_data_offset + raw_data_size = 0x10010`,
far beyond the 224-byte slice — `parse_sections` never validates the
raw data range of a section. -/
theorem C1_counterexample :
    (pe_load c1_data 224).isSome = true ∧
    ((pe_load c1_data 224).map fun ctx =>
      (ctx.sections.getD []).any fun s =>
        224 < s.raw_data_offset + s.raw_data_size) = some true := by
  decide

/-- Text-info entries produced by `parse_sections_text_step` stay
within the slice (the step only records a text section after its
bounds check passes). -/
theorem parse_sections_text_step_bound {size : Nat} {s : pe_section_t}
    {text : Option (Nat × Nat × Nat)}
    (ht : ∀ t ∈ text, t.1 + t.2.1 ≤ size) :
    ∀ t ∈ parse_sections_text_step size s text, t.1 + t.2.1 ≤ size := by
  intro t hmem
  unfold parse_sections_text_step at hmem
  by_cases hflags :
      s.characteristics &&& 0x20 ≠ 0 ∧ s.characteristics &&& 0x20000000 ≠ 0
  · rw [if_pos hflags] at hmem
    cases text with
    | some t0 =>
      simp only [Option.mem_def, Option.some.injEq] at hmem
      exact hmem ▸ ht t0 rfl
    | none =>
      simp only at hmem
      by_cases hb : bounds_check size s.raw_data_offset
          (if s.virtual_size = 0 ∨ s.virtual_size > s.raw_data_size then
            s.raw_data_size else s.virtual_size)
      · rw [if_pos hb] at hmem
        simp only [Option.mem_def, Option.some.injEq] at hmem
        subst hmem
        exact hb.1
      · rw [if_neg hb] at hmem
        simp at hmem
  · rw [if_neg hflags] at hmem
    exact ht t hmem

/-- The `parse_sections` loop preserves the text bound. -/
theorem parse_sections_go_text_bound {data : Nat → Nat} {size sec_off : Nat} :
    ∀ (fuel i : Nat) (acc : List pe_section_t)
      (text : Option (Nat × Nat × Nat))
      (res : List pe_section_t × Option (Nat × Nat × Nat)),
      (∀ t ∈ text, t.1 + t.2.1 ≤ size) →
      parse_sections_go data size sec_off fuel i acc text = some res →
      ∀ t ∈ res.2, t.1 + t.2.1 ≤ size := by
  intro fuel
  induction fuel with
  | zero =>
    intro i acc text res ht h
    simp only [parse_sections_go, Option.some.injEq] at h
    subst h
    exact ht
  | succ n ih =>
    intro i acc text res ht h
    dsimp only [parse_sections_go] at h
    split at h
    · exact ih _ _ _ _ (parse_sections_text_step_bound ht) h
    · exact absurd h (by simp)

/-- C1 (amended): `pe_load` does not validate
`raw_data_offset + raw_data_size` for recorded sections in general
(see `C1_counterexample`); the bound holds for the section the loader
designates as the text section: whenever `text_data` is set,
`text_data + text_size` lies within the input slice. -/
theorem C1_text_section_bounds (data : Nat → Nat) (size : Nat)
    (ctx : pe_context_t) (h : pe_load data size = some ctx) :
    ∀ off ∈ ctx.text_data, off + ctx.text_size ≤ size := by
  intro off hoff
  dsimp only [pe_load] at h
  split at h
  · exact absurd h (by simp)
  · next hdr hhdr =>
    split at h
    · exact absurd h (by simp)
    · next secs text hsec =>
      simp only [Option.some.injEq] at h
      subst h
      simp only [Option.mem_def, Option.map_eq_some'] at hoff
      obtain ⟨t, ht, hoff⟩ := hoff
      subst hoff
      have := parse_sections_go_text_bound _ _ _ _ _ (by simp) hsec t
        (by simp [ht])
      simpa [ht] using this

set_option maxRecDepth 8000 in
/-- C1 witness: the amended theorem applied to a concrete accepted PE
with a designated text section. -/
theorem C1_text_section_bounds_witness :
    pe_load c1b_data 224 = some c1b_ctx ∧ (208 : Nat) + c1b_ctx.text_size ≤ 224 :=
  ⟨by rfl, C1_text_section_bounds c1b_data 224 c1b_ctx (by rfl) 208 (by rfl)⟩

/-! ## Claim C4 -/

/-- The descriptor-counting loop never counts past 1001: it stops as
soon as `desc_count` exceeds 1000. -/
theorem import_desc_count_go_le {data : Nat → Nat} {size : Nat}
    {secs : List pe_section_t} {rva : Nat} :
    ∀ (fuel i dc : Nat), dc ≤ 1000 →
      import_desc_count_go data size secs rva fuel i dc ≤ 1001 := by
  intro fuel
  induction fuel with
  | zero => intro i dc h; simp only [import_desc_count_go]; omega
  | succ n ih =>
    intro i dc h
    unfold import_desc_count_go
    split
    · omega
    · split
      · omega
      · split
        · omega
        · exact ih (i + 1) (dc + 1) (by omega)

/-- The lookup-table walk grows `count` to at most
`max 10001 (count_in + 1)`: it stops as soon as the count exceeds
10000, so only a walk entered below the cap can reach 10001. -/
theorem import_entries_go_le {data : Nat → Nat} {size : Nat}
    {secs : List pe_section_t} {is64 : Bool} {ilt iat : Nat}
    {dll : List Nat} :
    ∀ (fuel j c : Nat) (acc : List pe_import_t),
      (import_entries_go data size secs is64 ilt iat dll fuel j c acc).1 ≤
        max 10001 (c + 1) := by
  intro fuel
  induction fuel with
  | zero => intro j c acc; simp only [import_entries_go]; omega
  | succ n ih =>
    intro j c acc
    unfold import_entries_go
    dsimp only
    repeat' split
    all_goals try dsimp only
    all_goals first
      | omega
      | (refine le_trans (ih _ _ _) ?_; omega)

/-- Across the per-descriptor loop, `count` stays below
`max (10000 + fuel) (count_in + fuel)`: the first descriptor that hits
the 10000 cap can push the count to 10001, and each further descriptor
can add at most one more import. -/
theorem import_process_go_le {data : Nat → Nat} {size : Nat}
    {secs : List pe_section_t} {is64 : Bool} {rva : Nat} :
    ∀ (fuel d : Nat) (st : Nat × List pe_import_t),
      (import_process_go data size secs is64 rva fuel d st).1 ≤
        max (10000 + fuel) (st.1 + fuel) := by
  intro fuel
  induction fuel with
  | zero => intro d st; simp [import_process_go]
  | succ n ih =>
    intro d st
    unfold import_process_go
    dsimp only
    repeat' split
    all_goals first
      | (refine le_trans (ih _ _) ?_; omega)
      | (refine le_trans (ih _ _) (max_le (by omega)
          (le_trans (Nat.add_le_add_right (import_entries_go_le _ _ _ _) n)
            (by omega))))

/-- The `(imports, count)` result of `parse_imports` obeys the caps:
the count is bounded by 10000 plus the descriptor count, which itself
is at most 1001. -/
theorem pe_parse_imports_le (data : Nat → Nat) (size : Nat)
    (secs : List pe_section_t) (is64 : Bool) (rva sz : Nat) :
    (pe_parse_imports data size secs is64 rva sz).2 ≤
      10000 + (if rva = 0 ∨ sz = 0 then 0
        else import_desc_count data size secs rva) ∧
    (if rva = 0 ∨ sz = 0 then 0
      else import_desc_count data size secs rva) ≤ 1001 := by
  unfold pe_parse_imports
  by_cases hz : rva = 0 ∨ sz = 0
  · simp only [if_pos hz]
    exact ⟨by omega, by omega⟩
  · simp only [if_neg hz]
    have hD : import_desc_count data size secs rva ≤ 1001 :=
      import_desc_count_go_le 1002 0 0 (by omega)
    refine ⟨?_, hD⟩
    by_cases hD0 : import_desc_count data size secs rva = 0
    · simp only [if_pos hD0]; omega
    · simp only [if_neg hD0]
      have := @import_process_go_le data size secs is64 rva
        (import_desc_count data size secs rva) 0 (0, [])
      dsimp only at this ⊢
      omega

set_option maxRecDepth 100000 in
/-- C4 counterexample: `pe_load` accepts `c4_data` and processes 1001
descriptors (not at most 1000): the counting loop increments before
testing the cap (pe_loader.c lines 139-140), so the 1001st descriptor
is still processed. -/
theorem C4_counterexample :
    (pe_load c4_data 28936).isSome = true ∧
    pe_import_descriptors_processed c4_data 28936 = 1001 := by
  exact ⟨rfl, rfl⟩

/-- C4 (amended): for every accepted byte slice, at most 1001 import
descriptors are processed, and the recorded import count is at most
10000 plus the number of processed descriptors (so at most 11001):
the inner walk increments before testing the 10000 cap, and each later
descriptor restarts the walk and can add one more import. -/
theorem C4_import_caps (data : Nat → Nat) (size : Nat) (ctx : pe_context_t)
    (h : pe_load data size = some ctx) :
    ctx.import_count ≤ 10000 + pe_import_descriptors_processed data size ∧
    pe_import_descriptors_processed data size ≤ 1001 := by
  unfold pe_load at h
  unfold pe_import_descriptors_processed
  cases hh : pe_parse_headers data size with
  | none => rw [hh] at h; simp at h
  | some hd =>
    rw [hh] at h
    dsimp only at h ⊢
    cases hs : parse_sections data size (hd.opt_offset + hd.opt_header_size)
        hd.num_sections with
    | none => rw [hs] at h; simp at h
    | some st =>
      obtain ⟨secs, text⟩ := st
      rw [hs] at h
      dsimp only at h ⊢
      simp only [Option.some.injEq] at h
      subst h
      dsimp only
      by_cases hnd : hd.num_dirs > 1
      · simp only [if_pos hnd]
        exact pe_parse_imports_le data size secs hd.is_64bit
          (read32 data (hd.dirs_off + 8)) (read32 data (hd.dirs_off + 12))
      · simp only [if_neg hnd]
        exact ⟨by omega, by omega⟩

/-- C4 witness: the amended theorem applied to the concrete accepted
PE `c1b_data` (no import directory, so 0 descriptors processed). -/
theorem C4_import_caps_witness :
    c1b_ctx.import_count ≤ 10000 + pe_import_descriptors_processed c1b_data 224 ∧
    pe_import_descriptors_processed c1b_data 224 ≤ 1001 :=
  C4_import_caps c1b_data 224 c1b_ctx (by rfl)

/-- Combined state facts about `decode_modrm`: bytes consumed are
`modrm_len`, the other context fields are untouched, and the r/m
operand is a register or memory operand (never relative). -/
theorem decode_modrm_state (dec : x86_decoder_t) (sz : Nat) :
    (decode_modrm dec sz).1.offset = dec.offset + modrm_len dec ∧
    (decode_modrm dec sz).1.code = dec.code ∧
    (decode_modrm dec sz).1.code_size = dec.code_size ∧
    (decode_modrm dec sz).1.base_address = dec.base_address ∧
    ((decode_modrm dec sz).2.1.type = .REG ∨
      (decode_modrm dec sz).2.1.type = .MEM) := by
  unfold decode_modrm modrm_len
  dsimp only [read_i8, read_i32, dec_adv, eat]
  repeat' split
  all_goals refine ⟨?_, ?_, ?_, ?_, ?_⟩
  all_goals simp

@[simp] theorem decode_modrm_offset (dec : x86_decoder_t) (sz : Nat) :
    (decode_modrm dec sz).1.offset = dec.offset + modrm_len dec :=
  (decode_modrm_state dec sz).1

@[simp] theorem decode_modrm_code (dec : x86_decoder_t) (sz : Nat) :
    (decode_modrm dec sz).1.code = dec.code :=
  (decode_modrm_state dec sz).2.1

@[simp] theorem decode_modrm_code_size (dec : x86_decoder_t) (sz : Nat) :
    (decode_modrm dec sz).1.code_size = dec.code_size :=
  (decode_modrm_state dec sz).2.2.1

@[simp] theorem decode_modrm_base (dec : x86_decoder_t) (sz : Nat) :
    (decode_modrm dec sz).1.base_address = dec.base_address :=
  (decode_modrm_state dec sz).2.2.2.1

/-- The r/m operand is a register or memory operand, never relative. -/
theorem decode_modrm_rm_type (dec : x86_decoder_t) (sz : Nat) :
    (decode_modrm dec sz).2.1.type = .REG ∨
      (decode_modrm dec sz).2.1.type = .MEM :=
  (decode_modrm_state dec sz).2.2.2.2

/-- The prefix loop only advances the cursor. -/
theorem prefix_scan_mono :
    ∀ (fuel : Nat) (dec : x86_decoder_t) (pfx : Nat),
      dec.offset ≤ (prefix_scan dec fuel pfx).1.offset := by
  intro fuel
  induction fuel with
  | zero => intro dec pfx; simp [prefix_scan]
  | succ n ih =>
    intro dec pfx
    unfold prefix_scan
    dsimp only
    repeat' split
    all_goals first
      | simp
      | (refine le_trans ?_ (ih _ _); simp)

/-- The prefix loop leaves the code pointer unchanged. -/
theorem prefix_scan_code :
    ∀ (fuel : Nat) (dec : x86_decoder_t) (pfx : Nat),
      (prefix_scan dec fuel pfx).1.code = dec.code := by
  intro fuel
  induction fuel with
  | zero => intro dec pfx; simp [prefix_scan]
  | succ n ih =>
    intro dec pfx
    unfold prefix_scan
    dsimp only
    repeat' split
    all_goals simp [ih]

/-- The prefix loop leaves the buffer length unchanged. -/
theorem prefix_scan_code_size :
    ∀ (fuel : Nat) (dec : x86_decoder_t) (pfx : Nat),
      (prefix_scan dec fuel pfx).1.code_size = dec.code_size := by
  intro fuel
  induction fuel with
  | zero => intro dec pfx; simp [prefix_scan]
  | succ n ih =>
    intro dec pfx
    unfold prefix_scan
    dsimp only
    repeat' split
    all_goals simp [ih]

/-- The prefix loop leaves the base address unchanged. -/
theorem prefix_scan_base :
    ∀ (fuel : Nat) (dec : x86_decoder_t) (pfx : Nat),
      (prefix_scan dec fuel pfx).1.base_address = dec.base_address := by
  intro fuel
  induction fuel with
  | zero => intro dec pfx; simp [prefix_scan]
  | succ n ih =>
    intro dec pfx
    unfold prefix_scan
    dsimp only
    repeat' split
    all_goals simp [ih]

set_option maxRecDepth 8000 in
set_option maxHeartbeats 1600000 in
/-- Combined state facts about `decode_0F`: the cursor only advances,
the other context fields are untouched, and the decoded address is the
one passed in. -/
theorem decode_0F_state (dec : x86_decoder_t) (out : x86_decoded_t) (sz : Nat) :
    dec.offset ≤ (decode_0F dec out sz).1.offset ∧
    (decode_0F dec out sz).1.code = dec.code ∧
    (decode_0F dec out sz).1.code_size = dec.code_size ∧
    (decode_0F dec out sz).1.base_address = dec.base_address ∧
    (decode_0F dec out sz).2.address = out.address := by
  unfold decode_0F
  dsimp only [read_i32, dec_adv]
  repeat' split
  all_goals refine ⟨?_, ?_, ?_, ?_, ?_⟩ <;>
    first
      | rfl
      | exact Nat.le_add_right _ _
      | (simp only [decode_modrm_offset, decode_modrm_code,
          decode_modrm_code_size, decode_modrm_base, dec_adv_offset,
          dec_adv_code, dec_adv_code_size, dec_adv_base]
         try omega)

set_option maxRecDepth 40000 in
set_option maxHeartbeats 4000000 in
/-- Combined state facts about `decode_opcode`: the cursor only
advances, the other context fields are untouched, and the decoded
address is the one passed in. -/
theorem decode_opcode_state (dec : x86_decoder_t) (out : x86_decoded_t)
    (opcode sz : Nat) :
    dec.offset ≤ (decode_opcode dec out opcode sz).1.offset ∧
    (decode_opcode dec out opcode sz).1.code = dec.code ∧
    (decode_opcode dec out opcode sz).1.code_size = dec.code_size ∧
    (decode_opcode dec out opcode sz).1.base_address = dec.base_address ∧
    (decode_opcode dec out opcode sz).2.address = out.address := by
  unfold decode_opcode
  dsimp only [eat, read_i8, read_i32, read_u16, read_u32, dec_adv]
  repeat' split
  all_goals first
    | exact decode_0F_state _ _ _
    | (refine ⟨?_, ?_, ?_, ?_, ?_⟩ <;>
        first
          | rfl
          | exact Nat.le_add_right _ _
          | (simp only [decode_modrm_offset, decode_modrm_code,
              decode_modrm_code_size, decode_modrm_base, dec_adv_offset,
              dec_adv_code, dec_adv_code_size, dec_adv_base]
             try omega))

/-- Projection: `decode_opcode` only advances the cursor. -/
theorem decode_opcode_mono (dec : x86_decoder_t) (out : x86_decoded_t)
    (opcode sz : Nat) :
    dec.offset ≤ (decode_opcode dec out opcode sz).1.offset :=
  (decode_opcode_state dec out opcode sz).1

/-- Projection: `decode_opcode` leaves the code pointer unchanged. -/
@[simp] theorem decode_opcode_code (dec : x86_decoder_t)
    (out : x86_decoded_t) (opcode sz : Nat) :
    (decode_opcode dec out opcode sz).1.code = dec.code :=
  (decode_opcode_state dec out opcode sz).2.1

/-- Projection: `decode_opcode` leaves the code size unchanged. -/
@[simp] theorem decode_opcode_code_size (dec : x86_decoder_t)
    (out : x86_decoded_t) (opcode sz : Nat) :
    (decode_opcode dec out opcode sz).1.code_size = dec.code_size :=
  (decode_opcode_state dec out opcode sz).2.2.1

/-- Projection: `decode_opcode` leaves the base address unchanged. -/
@[simp] theorem decode_opcode_base (dec : x86_decoder_t)
    (out : x86_decoded_t) (opcode sz : Nat) :
    (decode_opcode dec out opcode sz).1.base_address = dec.base_address :=
  (decode_opcode_state dec out opcode sz).2.2.2.1

/-- Projection: `decode_opcode` never changes the decoded address. -/
@[simp] theorem decode_opcode_address (dec : x86_decoder_t)
    (out : x86_decoded_t) (opcode sz : Nat) :
    (decode_opcode dec out opcode sz).2.address = out.address :=
  (decode_opcode_state dec out opcode sz).2.2.2.2

/-- Combined state facts about `x86_decode_one`: the cursor only
advances and the code pointer, code size and base address are
untouched. -/
theorem x86_decode_one_state (dec : x86_decoder_t) :
    dec.offset ≤ (x86_decode_one dec).1.offset ∧
    (x86_decode_one dec).1.code = dec.code ∧
    (x86_decode_one dec).1.code_size = dec.code_size ∧
    (x86_decode_one dec).1.base_address = dec.base_address := by
  unfold x86_decode_one
  dsimp only
  split
  · exact ⟨le_refl _, rfl, rfl, rfl⟩
  · split
    · exact ⟨prefix_scan_mono _ _ _, prefix_scan_code _ _ _,
        prefix_scan_code_size _ _ _, prefix_scan_base _ _ _⟩
    · dsimp only
      refine ⟨?_, ?_, ?_, ?_⟩
      · refine le_trans
          (prefix_scan_mono (dec.code_size - dec.offset) dec 0)
          (le_trans ?_ ((decode_opcode_state _ _ _ _).1))
        exact Nat.le_succ _
      · simp only [decode_opcode_code, dec_adv_code, prefix_scan_code]
      · simp only [decode_opcode_code_size, dec_adv_code_size,
          prefix_scan_code_size]
      · simp only [decode_opcode_base, dec_adv_base, prefix_scan_base]

/-- The `length` field written on the successful path of
`x86_decode_one` (line 966): bytes consumed, truncated to `uint8_t`. -/
theorem x86_decode_one_length (dec dec' : x86_decoder_t)
    (out : x86_decoded_t) (h : x86_decode_one dec = (dec', some out)) :
    out.length = (dec'.offset - dec.offset) % 256 := by
  unfold x86_decode_one at h
  dsimp only at h
  split at h
  · simp at h
  · split at h
    · simp at h
    · rw [Prod.mk.injEq, Option.some.injEq] at h
      obtain ⟨h1, h2⟩ := h
      subst h2
      subst h1
      rfl

/-- A successful decode whose reported length is non-zero strictly
advanced the cursor. -/
theorem x86_decode_one_advance (dec dec' : x86_decoder_t)
    (out : x86_decoded_t) (h : x86_decode_one dec = (dec', some out))
    (hl : out.length ≠ 0) : dec.offset < dec'.offset := by
  have hm := (x86_decode_one_state dec).1
  rw [h] at hm
  have hlen := x86_decode_one_length dec dec' out h
  omega

/-- Beyond `code_size - offset + 1` iterations the decode loop has
stabilised: any two sufficient fuels give the same run. -/
theorem x86_decode_range_go_fuel :
    ∀ (fuel : Nat) (dec : x86_decoder_t) (acc : List x86_decoded_t)
      (f' : Nat),
      dec.code_size - dec.offset + 1 ≤ fuel →
      dec.code_size - dec.offset + 1 ≤ f' →
      x86_decode_range_go dec fuel acc = x86_decode_range_go dec f' acc := by
  intro fuel
  induction fuel with
  | zero => intro dec acc f' h _; omega
  | succ n ih =>
    intro dec acc f' h h'
    cases f' with
    | zero => omega
    | succ m =>
      simp only [x86_decode_range_go]
      split
      · rename_i hlt
        cases hx : x86_decode_one dec with
        | mk d2 o =>
          cases o with
          | none => rfl
          | some out =>
            dsimp only
            split
            · rfl
            · rename_i hlen
              have hadv := x86_decode_one_advance dec d2 out hx hlen
              have hcs : d2.code_size = dec.code_size := by
                have h3 := (x86_decode_one_state dec).2.2.1
                rw [hx] at h3
                exact h3
              exact ih d2 (acc ++ [out]) m (by omega) (by omega)
      · rfl

/-- C7: every call to `x86_decode_one` either strictly advances the
cursor or returns 0; a call at or past the end of the buffer returns 0
and consumes nothing; and `x86_decode_range` terminates: any fuel of at
least `code_size - offset + 1` steps yields its (stable) result. -/
theorem C7_decoder_progress (dec : x86_decoder_t) :
    (dec.offset < (x86_decode_one dec).1.offset ∨
      x86_decode_one_ret (x86_decode_one dec) = 0) ∧
    (dec.code_size ≤ dec.offset → x86_decode_one dec = (dec, none)) ∧
    (∀ fuel : Nat, dec.code_size - dec.offset + 1 ≤ fuel →
      x86_decode_range_go dec fuel [] = x86_decode_range dec) := by
  refine ⟨?_, ?_, ?_⟩
  · rcases Nat.lt_or_ge dec.offset (x86_decode_one dec).1.offset with h | h
    · exact Or.inl h
    · refine Or.inr ?_
      have hm := (x86_decode_one_state dec).1
      cases hx : x86_decode_one dec with
      | mk d2 o =>
        cases o with
        | none => rfl
        | some out =>
          show out.length = 0
          have hlen := x86_decode_one_length dec d2 out hx
          rw [hx] at hm h
          dsimp only at hm h
          omega
  · intro h
    unfold x86_decode_one
    dsimp only
    split
    · rfl
    · exact absurd h (by assumption)
  · intro fuel hf
    unfold x86_decode_range
    exact x86_decode_range_go_fuel fuel dec [] _ hf (le_refl _)

/-- Closed instance of `C7_decoder_progress` at a concrete decoder
whose cursor sits at the end of a 5-byte buffer. -/
theorem C7_decoder_progress_witness :
    x86_decode_one ⟨32, fun _ => 0, 5, 0, 5⟩ =
      (⟨32, fun _ => 0, 5, 0, 5⟩, none) ∧
    x86_decode_range_go ⟨32, fun _ => 0, 5, 0, 5⟩ 9 [] =
      x86_decode_range ⟨32, fun _ => 0, 5, 0, 5⟩ :=
  ⟨(C7_decoder_progress _).2.1 (by decide),
   (C7_decoder_progress _).2.2 9 (by decide)⟩

/-- `sext8` lands in the signed byte range. -/
theorem sext8_bounds (n : Nat) : -(2 ^ 7) ≤ sext8 n ∧ sext8 n < 2 ^ 7 := by
  unfold sext8
  split <;> omega

/-- `sext32` lands in the signed 32-bit range. -/
theorem sext32_bounds (n : Nat) :
    -(2 ^ 31) ≤ sext32 n ∧ sext32 n < 2 ^ 31 := by
  unfold sext32
  split <;> omega

/-- The r/m operand of `decode_modrm` is never a relative operand. -/
theorem decode_modrm_rm_not_rel (dec : x86_decoder_t) (sz : Nat) :
    (decode_modrm dec sz).2.1.type ≠ x86_operand_type_t.REL := by
  rcases decode_modrm_rm_type dec sz with h | h <;> simp [h]

/-- If the two-byte dispatch produces a relative operand 0, the stored
immediate is the absolute end-of-instruction address plus the
sign-extension of the displacement occupying the instruction's final
four bytes, and the instruction is a near `Jcc`. -/
theorem decode_0F_rel (dec : x86_decoder_t) (out : x86_decoded_t)
    (sz : Nat) (h0 : out.op0.type ≠ x86_operand_type_t.REL) :
    (decode_0F dec out sz).2.op0.type = x86_operand_type_t.REL →
    ∃ rel : Int,
      (decode_0F dec out sz).2.op0.imm =
        toInt64 (((decode_0F dec out sz).1.base_address +
          (decode_0F dec out sz).1.offset) % 2 ^ 64) + rel ∧
      ((rel = sext8 (byteAt (decode_0F dec out sz).1.code
            ((decode_0F dec out sz).1.offset - 1)) ∧
          -(2 ^ 7) ≤ rel ∧ rel < 2 ^ 7) ∨
       (rel = sext32 (read32 (decode_0F dec out sz).1.code
            ((decode_0F dec out sz).1.offset - 4)) ∧
          -(2 ^ 31) ≤ rel ∧ rel < 2 ^ 31)) ∧
      ((decode_0F dec out sz).2.instruction = .JMP ∨
       (decode_0F dec out sz).2.instruction = .JCC ∨
       (decode_0F dec out sz).2.instruction = .CALL ∨
       (decode_0F dec out sz).2.instruction = .LOOP) := by
  unfold decode_0F
  dsimp only [read_i32, dec_adv]
  repeat' split
  all_goals intro hrel
  all_goals first
    | exact absurd hrel h0
    | exact absurd hrel (decode_modrm_rm_not_rel _ _)
    | (refine ⟨_, rfl, Or.inr ⟨?_, sext32_bounds _⟩, ?_⟩
       · simp [peek]
       · simp)
    | (refine absurd hrel ?_
       simp [reg_operand, imm_operand, zero_operand])

/-- If `decode_opcode` produces a relative operand 0, the stored
immediate is the absolute end-of-instruction address plus the
sign-extension of the displacement occupying the instruction's final
one or four bytes, and the instruction is `JMP`, `Jcc`, `CALL` or
`LOOP`. -/
theorem decode_opcode_rel (dec : x86_decoder_t) (out : x86_decoded_t)
    (opcode sz : Nat) (h0 : out.op0.type ≠ x86_operand_type_t.REL)  :
    (decode_opcode dec out opcode sz).2.op0.type = x86_operand_type_t.REL →
    ∃ rel : Int,
      (decode_opcode dec out opcode sz).2.op0.imm =
        toInt64 (((decode_opcode dec out opcode sz).1.base_address +
          (decode_opcode dec out opcode sz).1.offset) % 2 ^ 64) + rel ∧
      ((rel = sext8 (byteAt (decode_opcode dec out opcode sz).1.code
            ((decode_opcode dec out opcode sz).1.offset - 1)) ∧
          -(2 ^ 7) ≤ rel ∧ rel < 2 ^ 7) ∨
       (rel = sext32 (read32 (decode_opcode dec out opcode sz).1.code
            ((decode_opcode dec out opcode sz).1.offset - 4)) ∧
          -(2 ^ 31) ≤ rel ∧ rel < 2 ^ 31)) ∧
      ((decode_opcode dec out opcode sz).2.instruction = .JMP ∨
       (decode_opcode dec out opcode sz).2.instruction = .JCC ∨
       (decode_opcode dec out opcode sz).2.instruction = .CALL ∨
       (decode_opcode dec out opcode sz).2.instruction = .LOOP) := by
  unfold decode_opcode
  dsimp only [eat, read_i8, read_i32, read_u16, read_u32, dec_adv]
  repeat' split
  all_goals intro hrel
  all_goals first
    | exact absurd hrel h0
    | exact absurd hrel (decode_modrm_rm_not_rel _ _)
    | (refine ⟨_, rfl, Or.inl ⟨?_, sext8_bounds _⟩, ?_⟩
       · simp [peek]
       · simp)
    | (refine ⟨_, rfl, Or.inr ⟨?_, sext32_bounds _⟩, ?_⟩
       · simp [peek]
       · simp)
    | exact decode_0F_rel _ _ _ h0 hrel
    | (refine absurd hrel ?_
       simp [reg_operand, imm_operand, zero_operand])

/-- The address a successful `x86_decode_one` records: the base address
plus the starting cursor (uint64 wrap). -/
theorem x86_decode_one_address (dec dec' : x86_decoder_t)
    (out : x86_decoded_t) (h : x86_decode_one dec = (dec', some out)) :
    out.address = (dec.base_address + dec.offset) % 2 ^ 64 := by
  unfold x86_decode_one at h
  dsimp only at h
  split at h
  · simp at h
  · split at h
    · simp at h
    · rw [Prod.mk.injEq, Option.some.injEq] at h
      obtain ⟨h1, h2⟩ := h
      subst h2
      dsimp only
      rw [decode_opcode_address]

/-- C5: for every successfully decoded instruction whose operand 0 is
relative, the stored target is the absolute address of the byte after
the instruction (base address plus the final cursor, uint64 wrap) plus
the sign-extension of the displacement read from the instruction's
final one byte (`rel8`) or four bytes (`rel32`) of the code buffer,
and the instruction is `JMP`, `Jcc`, `CALL` or `LOOP`.
(`address + length + rel` only when fewer than 256 bytes were
consumed: `length` is a `uint8_t`.) -/
theorem C5_relative_targets (dec dec' : x86_decoder_t)
    (out : x86_decoded_t) (h : x86_decode_one dec = (dec', some out))
    (hrel : out.op0.type = x86_operand_type_t.REL) :
    ∃ rel : Int,
      out.op0.imm =
        toInt64 ((dec'.base_address + dec'.offset) % 2 ^ 64) + rel ∧
      ((rel = sext8 (byteAt dec'.code (dec'.offset - 1)) ∧
          -(2 ^ 7) ≤ rel ∧ rel < 2 ^ 7) ∨
       (rel = sext32 (read32 dec'.code (dec'.offset - 4)) ∧
          -(2 ^ 31) ≤ rel ∧ rel < 2 ^ 31)) ∧
      (out.instruction = .JMP ∨ out.instruction = .JCC ∨
       out.instruction = .CALL ∨ out.instruction = .LOOP) := by
  unfold x86_decode_one at h
  dsimp only at h
  split at h
  · simp at h
  · split at h
    · simp at h
    · rw [Prod.mk.injEq, Option.some.injEq] at h
      obtain ⟨h1, h2⟩ := h
      subst h2
      subst h1
      dsimp only at hrel ⊢
      exact decode_opcode_rel _ _ _ _ (by simp [zero_operand]) hrel

set_option maxRecDepth 8000 in
/-- Counterexample to the literal C5 claim: a `JMP rel8` padded with
256 operand-size prefixes decodes with address 0, length field 2 and
stored target 258, but `address + length + rel = 0 + 2 + 0 = 2`. -/
theorem C5_counterexample :
    ((x86_decode_one ⟨32, c5code, 258, 0, 0⟩).2.map
        (fun d => (d.instruction, d.address, d.length,
          d.op0.type, d.op0.imm))) =
      some (.JMP, 0, 2, .REL, 258) ∧
    (258 : Int) ≠ 0 + 2 + 0 :=
  ⟨by rfl, by decide⟩

/-- Closed instance of `C5_relative_targets` on `EB 00` at base 4096. -/
theorem C5_relative_targets_witness :
    ∃ rel : Int,
      c5w_out.op0.imm =
        toInt64 ((c5w_dec2.base_address + c5w_dec2.offset) % 2 ^ 64) + rel ∧
      ((rel = sext8 (byteAt c5w_dec2.code (c5w_dec2.offset - 1)) ∧
          -(2 ^ 7) ≤ rel ∧ rel < 2 ^ 7) ∨
       (rel = sext32 (read32 c5w_dec2.code (c5w_dec2.offset - 4)) ∧
          -(2 ^ 31) ≤ rel ∧ rel < 2 ^ 31)) ∧
      (c5w_out.instruction = .JMP ∨ c5w_out.instruction = .JCC ∨
       c5w_out.instruction = .CALL ∨ c5w_out.instruction = .LOOP) :=
  C5_relative_targets c5w_dec c5w_dec2 c5w_out (by rfl) (by rfl)

/-- Running the decode loop with an accumulator prepends it to the run
from the empty accumulator. -/
theorem x86_decode_range_go_acc :
    ∀ (fuel : Nat) (dec : x86_decoder_t) (acc : List x86_decoded_t),
      x86_decode_range_go dec fuel acc =
        ((x86_decode_range_go dec fuel []).1,
          acc ++ (x86_decode_range_go dec fuel []).2) := by
  intro fuel
  induction fuel with
  | zero => intro dec acc; simp [x86_decode_range_go]
  | succ n ih =>
    intro dec acc
    simp only [x86_decode_range_go]
    split
    · cases hx : x86_decode_one dec with
      | mk d2 o =>
        cases o with
        | none => simp
        | some out =>
          dsimp only
          split
          · simp
          · rw [ih d2 (acc ++ [out]), ih d2 ([] ++ [out])]
            simp
    · simp

/-- The decode loop from an empty accumulator yields a chained run
starting at the current absolute address. -/
theorem x86_decode_range_go_chained :
    ∀ (fuel : Nat) (dec : x86_decoder_t),
      chained (dec.base_address + dec.offset)
        (x86_decode_range_go dec fuel []).2 := by
  intro fuel
  induction fuel with
  | zero => intro dec; simp [x86_decode_range_go, chained]
  | succ n ih =>
    intro dec
    simp only [x86_decode_range_go]
    split
    · cases hx : x86_decode_one dec with
      | mk d2 o =>
        cases o with
        | none => simp [chained]
        | some out =>
          dsimp only
          split
          · simp [chained]
          · rename_i hlen
            rw [x86_decode_range_go_acc n d2 ([] ++ [out])]
            dsimp only
            simp only [List.nil_append, List.singleton_append, chained]
            refine ⟨x86_decode_one_address dec d2 out hx,
              d2.offset - dec.offset, ?_, x86_decode_one_length dec d2 out hx,
              ?_⟩
            · have := x86_decode_one_advance dec d2 out hx hlen
              omega
            · have hb := (x86_decode_one_state dec).2.2.2
              have hm := (x86_decode_one_state dec).1
              rw [hx] at hb hm
              dsimp only at hb hm
              have he : dec.base_address + dec.offset +
                  (d2.offset - dec.offset) = d2.base_address + d2.offset := by
                omega
              rw [he]
              exact ih d2
    · simp [chained]

/-- C9: the records `x86_decode_range` returns tile the consumed bytes
contiguously as chained by actual byte counts: the first record sits at
the starting absolute address and each next record at the previous one
plus its actual size, whose `uint8_t` truncation is the stored
`length` field.  (Chaining by the stored `length` itself fails for
instructions of 256 bytes or more, see the counterexample.) -/
theorem C9_decode_range_tiling (dec : x86_decoder_t) :
    chained (dec.base_address + dec.offset) (x86_decode_range dec).2 :=
  x86_decode_range_go_chained _ dec

set_option maxRecDepth 8000 in
/-- Counterexample to the literal C9 claim: the second decoded record
sits at address 258, not at `previous address + previous length
field = 0 + 2`. -/
theorem C9_counterexample :
    ((x86_decode_range ⟨32, c9code, 259, 0, 0⟩).2.map
        (fun d => (d.address, d.length))) = [(0, 2), (258, 1)] ∧
    (258 : Nat) ≠ 0 + 2 :=
  ⟨by rfl, by decide⟩

/-- `add_port` never empties the list. -/
@[simp] theorem add_port_ne_nil (ports : List Nat) (port : Nat) :
    add_port ports port ≠ [] := by
  unfold add_port
  split
  · rename_i hmem
    intro hnil
    rw [hnil] at hmem
    simp at hmem
  · simp

/-- Port-related facts about `lift_one`: it reports port I/O exactly
for `IN`/`OUT`, produces `UIR_PORT_IN`/`UIR_PORT_OUT` exactly for
them, and on them converts the port operand and tests the DX register
as the source does. -/
theorem lift_one_port (x : x86_decoded_t) :
    ((lift_one x).2.1 =
      (decide (x.instruction = .IN) || decide (x.instruction = .OUT))) ∧
    (((lift_one x).1.opcode = .UIR_PORT_IN) ↔ x.instruction = .IN) ∧
    (((lift_one x).1.opcode = .UIR_PORT_OUT) ↔ x.instruction = .OUT) ∧
    (x.instruction = .IN →
      (lift_one x).1.src1 = convert_operand x 1 ∧
      (lift_one x).2.2 = decide (x.op1.type = x86_operand_type_t.REG)) ∧
    (x.instruction = .OUT →
      (lift_one x).1.dest = convert_operand x 0 ∧
      (lift_one x).2.2 = decide (x.op0.type = x86_operand_type_t.REG)) ∧
    ((x.instruction = .IN ∨ x.instruction = .OUT) ∨
      (lift_one x).2.2 = false) := by
  unfold lift_one
  dsimp only
  repeat' split
  all_goals simp_all

/-- The port summary fields after one pass-2 step, in terms of the
incoming state and `lift_one`. -/
theorem pass2_step_fields (entry : Nat) (targets : List Nat)
    (st : lift_state_t) (x : x86_decoded_t) :
    (pass2_step entry targets st x).has_port_io =
      (st.has_port_io || (lift_one x).2.1) ∧
    (pass2_step entry targets st x).uses_dx_port =
      (st.uses_dx_port || (lift_one x).2.2) ∧
    (pass2_step entry targets st x).ports_read =
      (if (lift_one x).1.opcode = .UIR_PORT_IN ∧
          (lift_one x).1.src1.type = uir_operand_type_t.IMM then
        add_port st.ports_read (u16ofInt (lift_one x).1.src1.imm)
      else st.ports_read) ∧
    (pass2_step entry targets st x).ports_written =
      (if (lift_one x).1.opcode = .UIR_PORT_OUT ∧
          (lift_one x).1.dest.type = uir_operand_type_t.IMM then
        add_port st.ports_written (u16ofInt (lift_one x).1.dest.imm)
      else st.ports_written) := by
  unfold pass2_step
  dsimp only
  repeat' split
  all_goals simp_all

/-- One pass-2 step preserves the port invariant, given the
decoder-shape facts about `IN`/`OUT`. -/
theorem pass2_step_inv (entry : Nat) (targets : List Nat)
    (st : lift_state_t) (x : x86_decoded_t)
    (hx : (x.instruction = .IN → x.operand_count = 2 ∧
            (x.op1.type = x86_operand_type_t.REG ∨
             x.op1.type = x86_operand_type_t.IMM)) ∧
          (x.instruction = .OUT → x.operand_count = 2 ∧
            (x.op0.type = x86_operand_type_t.REG ∨
             x.op0.type = x86_operand_type_t.IMM)))
    (h : st.has_port_io = true ↔
      (st.ports_read ≠ [] ∨ st.ports_written ≠ [] ∨
        st.uses_dx_port = true)) :
    ((pass2_step entry targets st x).has_port_io = true ↔
      ((pass2_step entry targets st x).ports_read ≠ [] ∨
       (pass2_step entry targets st x).ports_written ≠ [] ∨
       (pass2_step entry targets st x).uses_dx_port = true)) := by
  obtain ⟨hflag, hin, hout, hinc, houtc, hdx⟩ := lift_one_port x
  obtain ⟨hf1, hf2, hf3, hf4⟩ := pass2_step_fields entry targets st x
  rw [hf1, hf2, hf3, hf4]
  by_cases hI : x.instruction = .IN
  · obtain ⟨hcnt, hty⟩ := hx.1 hI
    obtain ⟨hsrc, hdxv⟩ := hinc hI
    have hflag' : (lift_one x).2.1 = true := by rw [hflag]; simp [hI]
    rcases hty with hR | hM
    · have hdx' : (lift_one x).2.2 = true := by rw [hdxv]; simp [hR]
      simp [hflag', hdx']
    · have hsrc1 : (lift_one x).1.src1.type = uir_operand_type_t.IMM := by
        rw [hsrc]
        unfold convert_operand
        simp [hcnt, x86_decoded_t.operand, hM]
      simp [hflag', hin.2 hI, hsrc1]
  · by_cases hO : x.instruction = .OUT
    · obtain ⟨hcnt, hty⟩ := hx.2 hO
      obtain ⟨hdst, hdxv⟩ := houtc hO
      have hflag' : (lift_one x).2.1 = true := by rw [hflag]; simp [hO]
      rcases hty with hR | hM
      · have hdx' : (lift_one x).2.2 = true := by rw [hdxv]; simp [hR]
        simp [hflag', hdx']
      · have hdst1 : (lift_one x).1.dest.type = uir_operand_type_t.IMM := by
          rw [hdst]
          unfold convert_operand
          simp [hcnt, x86_decoded_t.operand, hM]
        simp [hflag', hout.2 hO, hdst1]
    · have hflag' : (lift_one x).2.1 = false := by rw [hflag]; simp [hI, hO]
      have hdx' : (lift_one x).2.2 = false := by
        rcases hdx with hio | hff
        · exact absurd hio (by simp [hI, hO])
        · exact hff
      have hpi : ¬((lift_one x).1.opcode = .UIR_PORT_IN) :=
        fun hcon => hI (hin.1 hcon)
      have hpo : ¬((lift_one x).1.opcode = .UIR_PORT_OUT) :=
        fun hcon => hO (hout.1 hcon)
      simp [hflag', hdx', hpi, hpo, h]

/-- Pass 2 as a whole preserves the port invariant. -/
theorem pass2_foldl_inv :
    ∀ (insts : List x86_decoded_t) (entry : Nat) (targets : List Nat)
      (st : lift_state_t),
      (∀ x ∈ insts,
        (x.instruction = .IN → x.operand_count = 2 ∧
          (x.op1.type = x86_operand_type_t.REG ∨
           x.op1.type = x86_operand_type_t.IMM)) ∧
        (x.instruction = .OUT → x.operand_count = 2 ∧
          (x.op0.type = x86_operand_type_t.REG ∨
           x.op0.type = x86_operand_type_t.IMM))) →
      (st.has_port_io = true ↔
        (st.ports_read ≠ [] ∨ st.ports_written ≠ [] ∨
          st.uses_dx_port = true)) →
      ((List.foldl (pass2_step entry targets) st insts).has_port_io = true ↔
        ((List.foldl (pass2_step entry targets) st insts).ports_read ≠ [] ∨
         (List.foldl (pass2_step entry targets) st insts).ports_written
           ≠ [] ∨
         (List.foldl (pass2_step entry targets) st insts).uses_dx_port
           = true)) := by
  intro insts
  induction insts with
  | nil => intro entry targets st _ h; exact h
  | cons x rest ih =>
    intro entry targets st hwf h
    exact ih entry targets (pass2_step entry targets st x)
      (fun y hy => hwf y (List.mem_cons_of_mem x hy))
      (pass2_step_inv entry targets st x (hwf x (List.mem_cons_self x rest))
        h)

/-- C6: for every function the lifter returns on decoder-shaped input
(each `IN`/`OUT` has two operands and its port operand is a register
or an immediate), `has_port_io` is true exactly when a port was
recorded as read or written or the DX-register port is used. -/
theorem C6_has_port_io_iff (insts : List x86_decoded_t) (entry : Nat)
    (f : uir_function_t) (h : uir_lift_function insts entry = some f)
    (hwf : ∀ x ∈ insts,
      (x.instruction = .IN → x.operand_count = 2 ∧
        (x.op1.type = x86_operand_type_t.REG ∨
         x.op1.type = x86_operand_type_t.IMM)) ∧
      (x.instruction = .OUT → x.operand_count = 2 ∧
        (x.op0.type = x86_operand_type_t.REG ∨
         x.op0.type = x86_operand_type_t.IMM))) :
    (f.has_port_io = true ↔
      (f.ports_read ≠ [] ∨ f.ports_written ≠ [] ∨
        f.uses_dx_port = true)) := by
  cases insts with
  | nil => simp [uir_lift_function] at h
  | cons x0 rest =>
    unfold uir_lift_function at h
    dsimp only at h
    rw [Option.some.injEq] at h
    subst h
    dsimp only
    exact pass2_foldl_inv (x0 :: rest) entry _ _ hwf (by simp)

/-- Closed instance of `C6_has_port_io_iff` on `[IN AL, 0x60]`. -/
theorem C6_has_port_io_iff_witness :
    c6w_func.has_port_io = true ↔
      (c6w_func.ports_read ≠ [] ∨ c6w_func.ports_written ≠ [] ∨
        c6w_func.uses_dx_port = true) :=
  C6_has_port_io_iff [c6w_in] 4096 c6w_func (by rfl) (by decide)

/-- C2: on `[JMP +2; NOP; RET]` the lifter yields three one-instruction
blocks; block 1 ends in `NOP` — not an unconditional `JMP` or `RET` —
and is not the last block, so its `fall_through` should be 2, but it is
-1: pass 3 gates the fall-through assignment on
`is_terminator(insts[0].instruction)` (uir.c line 503), the first
instruction of the whole input (here the `JMP`), instead of the
block's own last instruction. -/
theorem C2_fall_through_bug :
    ((uir_lift_function [c2jmp, c2nop, c2ret] 0).map
        (fun f => f.blocks.map (fun b =>
          (b.fall_through, b.branch_target,
            b.instructions.map (fun i => i.opcode))))) =
      some [(-1, 2, [.UIR_JMP]), (-1, -1, [.UIR_NOP]),
        (-1, -1, [.UIR_RET])] ∧
    (-1 : Int) ≠ 2 :=
  ⟨by rfl, by decide⟩

end BareMetalForth

